import Mathlib

/-!
# Secure three-tier web application stack (`bin/tap.go`, `lib/tap_stack.go`)

A shallow embedding of the Go CDK program.  The CDK construct tree is an
explicit state: the embedded `awscdk.Stack` is a record holding the constructs
registered so far (in registration order) together with the tags, security
group rules, resource-policy statements and grants attached to them by later
calls.  Every `createX` method of `TapStack` is a state transformer; a Go
run-time panic is the `Except.error` case.
-/

namespace TapApp

/-! ## Go run-time values -/

/-- Run-time panics the composition code can raise by itself. -/
inductive Panic where
  | nilDereference
  | typeAssertion
deriving DecidableEq, Repr

/-- Dynamic content of a non-nil `interface{}` as returned by `TryGetContext`. -/
inductive CtxValue where
  | str (s : String)
  | strPtr (p : Option String)
  | other (shown : String)
deriving DecidableEq, Repr

/-- A construct handle: the id under which the construct is registered in the stack. -/
abbrev Handle := String

/-- A Go map with string keys, seen through its lookups. -/
abbrev GoMap (α : Type) := String → Option α

/-- The map returned by `make(map[string]T)`. -/
def GoMap.empty {α : Type} : GoMap α := fun _ => none

/-- The assignment `m[k] = v`. -/
def GoMap.set {α : Type} (m : GoMap α) (k : String) (v : α) : GoMap α :=
  fun q => if q = k then some v else m q

/-- Go's `range` over a map literal: every entry is visited exactly once, in an
order the language leaves unspecified. -/
abbrev MapRange := (m : List (String × String)) → {l : List (String × String) // l.Perm m}

/-- Method call through an interface-typed field: a nil receiver panics. -/
def deref (h : Option Handle) : Except Panic Handle :=
  match h with
  | some x => .ok x
  | none => .error .nilDereference

/-- A string that may be a deploy-time attribute of another construct
(`x.BucketArn()`), possibly followed by literal text (`*x.BucketArn() + "/*"`). -/
inductive Str where
  | lit (s : String)
  | attr (target : Handle) (name : String)
  | attrCat (target : Handle) (name : String) (tail : String)
deriving DecidableEq, Repr

/-- Constructs a `Str` mentions. -/
def Str.refs : Str → List Handle
  | .lit _ => []
  | .attr h _ => [h]
  | .attrCat h _ _ => [h]

/-! ## Library property records, restricted to the fields the program sets -/

inductive Principal where
  | accountRoot
  | service (name : String)
  | grantPrincipalOf (h : Handle)
deriving DecidableEq, Repr

def Principal.refs : Principal → List Handle
  | .grantPrincipalOf h => [h]
  | _ => []

structure PolicyStatement where
  Effect : String
  Principals : List Principal := []
  Actions : List String
  Resources : List Str
  Conditions : List (String × String × String) := []
deriving DecidableEq, Repr

def PolicyStatement.refs (st : PolicyStatement) : List Handle :=
  st.Principals.flatMap Principal.refs ++ st.Resources.flatMap Str.refs

inductive RemovalPolicy where
  | DESTROY
  | RETAIN
  | SNAPSHOT
  | RETAIN_ON_UPDATE_OR_DELETE
deriving DecidableEq, Repr

inductive SubnetType where
  | PRIVATE_ISOLATED
  | PRIVATE_WITH_EGRESS
  | PUBLIC
deriving DecidableEq, Repr

inductive BucketEncryption where
  | UNENCRYPTED
  | KMS_MANAGED
  | S3_MANAGED
  | KMS
  | DSSE_MANAGED
  | DSSE
deriving DecidableEq, Repr

/-- The value of `vpc.PublicSubnets()` / `vpc.PrivateSubnets()`. -/
inductive SubnetList where
  | publicOf (vpc : Handle)
  | privateOf (vpc : Handle)
deriving DecidableEq, Repr

def SubnetList.vpc : SubnetList → Handle
  | .publicOf v => v
  | .privateOf v => v

structure SubnetSelection where
  Subnets : Option SubnetList := none
  SubnetType : Option SubnetType := none
deriving DecidableEq, Repr

structure Environment where
  Account : Option String
  Region : Option String
deriving DecidableEq, Repr

structure StackProps where
  Env : Option Environment := none
deriving DecidableEq, Repr

structure KeyProps where
  Description : String
  KeySpec : String
  KeyUsage : String
  Policy : List PolicyStatement
  RemovalPolicy : RemovalPolicy
deriving DecidableEq, Repr

structure AliasProps where
  AliasName : String
  TargetKey : Option Handle
deriving DecidableEq, Repr

structure SubnetConfiguration where
  Name : String
  SubnetType : SubnetType
  CidrMask : Nat
deriving DecidableEq, Repr

structure VpcProps where
  VpcName : String
  IpAddresses : String
  MaxAzs : Nat
  EnableDnsHostnames : Bool
  EnableDnsSupport : Bool
  SubnetConfiguration : List SubnetConfiguration
deriving DecidableEq, Repr

structure BlockPublicAccess where
  BlockPublicAcls : Bool
  BlockPublicPolicy : Bool
  IgnorePublicAcls : Bool
  RestrictPublicBuckets : Bool
deriving DecidableEq, Repr

/-- The library constant `BlockPublicAccess_BLOCK_ALL()`. -/
def BlockPublicAccess_BLOCK_ALL : BlockPublicAccess :=
  { BlockPublicAcls := true, BlockPublicPolicy := true,
    IgnorePublicAcls := true, RestrictPublicBuckets := true }

structure BucketProps where
  BucketName : String
  Versioned : Bool
  RemovalPolicy : RemovalPolicy
  AutoDeleteObjects : Bool
  BlockPublicAccess : BlockPublicAccess
  ObjectOwnership : Option String := none
  EncryptionKey : Option Handle
  Encryption : BucketEncryption
deriving DecidableEq, Repr

structure FlowLogProps where
  ResourceType_FromVpc : Option Handle
  Destination_ToS3 : Option Handle
  Destination_KeyPrefix : String
  TrafficType : String
deriving DecidableEq, Repr

structure SecurityGroupProps where
  Vpc : Option Handle
  Description : String
deriving DecidableEq, Repr

inductive Peer where
  | AnyIpv4
  | SecurityGroupId (id : Str)
deriving DecidableEq, Repr

def Peer.refs : Peer → List Handle
  | .AnyIpv4 => []
  | .SecurityGroupId s => s.refs

/-- The arguments of one `AddIngressRule` / `AddEgressRule` call. -/
structure Rule where
  peer : Peer
  tcpPort : Nat
  description : String
  remoteRule : Bool
deriving DecidableEq, Repr

structure SecretStringGenerator where
  SecretStringTemplate : String
  GenerateStringKey : String
  ExcludeCharacters : String
deriving DecidableEq, Repr

structure SecretProps where
  SecretName : String
  Description : String
  GenerateSecretString : SecretStringGenerator
  RemovalPolicy : RemovalPolicy
deriving DecidableEq, Repr

structure StringParameterProps where
  ParameterName : String
  StringValue : String
  Description : String
deriving DecidableEq, Repr

structure TopicProps where
  TopicName : String
  DisplayName : String
deriving DecidableEq, Repr

structure RoleProps where
  RoleName : String
  AssumedBy : Principal
  ManagedPolicies : List String
  InlinePolicies : List (String × List PolicyStatement) := []
deriving DecidableEq, Repr

structure LogGroupProps where
  LogGroupName : String
  Retention : String
  RemovalPolicy : RemovalPolicy
deriving DecidableEq, Repr

structure FunctionProps where
  FunctionName : String
  Runtime : String
  Code : String
  Handler : String
  MemorySize : Nat
  TimeoutSeconds : Nat
  Role : Option Handle
  LogGroup : Option Handle
  Vpc : Option Handle
  VpcSubnets : SubnetSelection
  SecurityGroups : List (Option Handle)
  Environment : List (String × Str)
  Description : String
  Tracing : String
  Architecture : String
deriving DecidableEq, Repr

structure LaunchTemplateProps where
  LaunchTemplateName : String
  InstanceType : String
  MachineImage : String
  Role : Option Handle
  SecurityGroup : Option Handle
  UserDataShebang : String
deriving DecidableEq, Repr

structure AutoScalingGroupProps where
  AutoScalingGroupName : String
  Vpc : Option Handle
  VpcSubnets : SubnetSelection
  LaunchTemplate : Option Handle
  MinCapacity : Nat
  MaxCapacity : Nat
  DesiredCapacity : Nat
deriving DecidableEq, Repr

structure BastionHostLinuxProps where
  Vpc : Option Handle
  InstanceName : String
  InstanceType : String
  SecurityGroup : Option Handle
  SubnetSelection : SubnetSelection
deriving DecidableEq, Repr

structure OriginAccessIdentityProps where
  Comment : String
deriving DecidableEq, Repr

/-- The value of `NewS3Origin(bucket, &S3OriginProps{OriginAccessIdentity: oai})`. -/
structure S3Origin where
  Bucket : Option Handle
  OriginAccessIdentity : Option Handle
deriving DecidableEq, Repr

structure BehaviorOptions where
  Origin : S3Origin
  ViewerProtocolPolicy : String
  CachePolicy : String
deriving DecidableEq, Repr

structure DistributionProps where
  Comment : String
  DefaultBehavior : BehaviorOptions
  PriceClass : String
  EnableIpv6 : Bool
  EnableLogging : Bool
  LogBucket : Option Handle
  LogFilePrefix : String
  LogIncludesCookies : Bool
  WebAclId : Option Str := none
deriving DecidableEq, Repr

structure VisibilityConfig where
  SampledRequestsEnabled : Bool
  CloudWatchMetricsEnabled : Bool
  MetricName : String
deriving DecidableEq, Repr

structure WebACLRule where
  Name : String
  Priority : Nat
  ManagedRuleGroup_VendorName : String
  ManagedRuleGroup_Name : String
  OverrideAction : String
  VisibilityConfig : VisibilityConfig
deriving DecidableEq, Repr

structure CfnWebACLProps where
  Name : String
  Scope : String
  DefaultAction : String
  Rules : List WebACLRule
  VisibilityConfig : VisibilityConfig
deriving DecidableEq, Repr

structure TrailProps where
  TrailName : String
  Bucket : Option Handle
  S3KeyPrefix : String
  IncludeGlobalServiceEvents : Bool
  IsMultiRegionTrail : Bool
  EnableFileValidation : Bool
  SendToCloudWatchLogs : Bool
  CloudWatchLogGroup : Option Handle
deriving DecidableEq, Repr

/-- The value of `fn.MetricErrors(nil)`. -/
structure Metric where
  source : Handle
  name : String
deriving DecidableEq, Repr

structure AlarmProps where
  AlarmName : String
  AlarmDescription : String
  Metric : Metric
  Threshold : Nat
  EvaluationPeriods : Nat
  TreatMissingData : String
deriving DecidableEq, Repr

structure CfnOutputProps where
  Value : Str
  Description : String
  ExportName : String
deriving DecidableEq, Repr

/-- What a `NewX(t.Stack, id, props)` call declares. -/
inductive Resource where
  | Key (p : KeyProps)
  | Alias (p : AliasProps)
  | Vpc (p : VpcProps)
  | Bucket (p : BucketProps)
  | FlowLog (p : FlowLogProps)
  | SecurityGroup (p : SecurityGroupProps)
  | Secret (p : SecretProps)
  | StringParameter (p : StringParameterProps)
  | Topic (p : TopicProps)
  | Role (p : RoleProps)
  | LogGroup (p : LogGroupProps)
  | Function (p : FunctionProps)
  | LaunchTemplate (p : LaunchTemplateProps)
  | AutoScalingGroup (p : AutoScalingGroupProps)
  | BastionHostLinux (p : BastionHostLinuxProps)
  | OriginAccessIdentity (p : OriginAccessIdentityProps)
  | Distribution (p : DistributionProps)
  | CfnWebACL (p : CfnWebACLProps)
  | Trail (p : TrailProps)
  | Alarm (p : AlarmProps)
  | CfnOutput (p : CfnOutputProps)
deriving DecidableEq, Repr

/-- The resource type of a declaration (the constructor that made it). -/
inductive Kind where
  | Key | Alias | Vpc | Bucket | FlowLog | SecurityGroup | Secret
  | StringParameter | Topic | Role | LogGroup | Function | LaunchTemplate
  | AutoScalingGroup | BastionHostLinux | OriginAccessIdentity | Distribution
  | CfnWebACL | Trail | Alarm | CfnOutput
deriving DecidableEq, Repr

def Resource.kind : Resource → Kind
  | .Key _ => .Key
  | .Alias _ => .Alias
  | .Vpc _ => .Vpc
  | .Bucket _ => .Bucket
  | .FlowLog _ => .FlowLog
  | .SecurityGroup _ => .SecurityGroup
  | .Secret _ => .Secret
  | .StringParameter _ => .StringParameter
  | .Topic _ => .Topic
  | .Role _ => .Role
  | .LogGroup _ => .LogGroup
  | .Function _ => .Function
  | .LaunchTemplate _ => .LaunchTemplate
  | .AutoScalingGroup _ => .AutoScalingGroup
  | .BastionHostLinux _ => .BastionHostLinux
  | .OriginAccessIdentity _ => .OriginAccessIdentity
  | .Distribution _ => .Distribution
  | .CfnWebACL _ => .CfnWebACL
  | .Trail _ => .Trail
  | .Alarm _ => .Alarm
  | .CfnOutput _ => .CfnOutput

/-- The physical name the props assign, when they assign one. -/
def Resource.physicalName : Resource → Option String
  | .Key _ => none
  | .Alias p => some p.AliasName
  | .Vpc p => some p.VpcName
  | .Bucket p => some p.BucketName
  | .FlowLog _ => none
  | .SecurityGroup _ => none
  | .Secret p => some p.SecretName
  | .StringParameter p => some p.ParameterName
  | .Topic p => some p.TopicName
  | .Role p => some p.RoleName
  | .LogGroup p => some p.LogGroupName
  | .Function p => some p.FunctionName
  | .LaunchTemplate p => some p.LaunchTemplateName
  | .AutoScalingGroup p => some p.AutoScalingGroupName
  | .BastionHostLinux p => some p.InstanceName
  | .OriginAccessIdentity _ => none
  | .Distribution _ => none
  | .CfnWebACL p => some p.Name
  | .Trail p => some p.TrailName
  | .Alarm p => some p.AlarmName
  | .CfnOutput _ => none

/-- Handles present in an optional-handle list. -/
def handles (hs : List (Option Handle)) : List Handle :=
  hs.filterMap (fun h => h)

def SubnetSelection.refs (s : SubnetSelection) : List Handle :=
  match s.Subnets with
  | some l => [l.vpc]
  | none => []

/-- Constructs whose handle or attribute occurs in the props a resource is
created with. -/
def Resource.refs : Resource → List Handle
  | .Key p => p.Policy.flatMap PolicyStatement.refs
  | .Alias p => handles [p.TargetKey]
  | .Vpc _ => []
  | .Bucket p => handles [p.EncryptionKey]
  | .FlowLog p => handles [p.ResourceType_FromVpc, p.Destination_ToS3]
  | .SecurityGroup p => handles [p.Vpc]
  | .Secret _ => []
  | .StringParameter _ => []
  | .Topic _ => []
  | .Role p => p.AssumedBy.refs ++
      p.InlinePolicies.flatMap (fun d => d.2.flatMap PolicyStatement.refs)
  | .LogGroup _ => []
  | .Function p => handles [p.Role, p.LogGroup, p.Vpc] ++ p.VpcSubnets.refs ++
      handles p.SecurityGroups ++ p.Environment.flatMap (fun e => e.2.refs)
  | .LaunchTemplate p => handles [p.Role, p.SecurityGroup]
  | .AutoScalingGroup p => handles [p.Vpc] ++ p.VpcSubnets.refs ++ handles [p.LaunchTemplate]
  | .BastionHostLinux p => handles [p.Vpc, p.SecurityGroup] ++ p.SubnetSelection.refs
  | .OriginAccessIdentity _ => []
  | .Distribution p =>
      handles [p.DefaultBehavior.Origin.Bucket, p.DefaultBehavior.Origin.OriginAccessIdentity,
        p.LogBucket] ++ (match p.WebAclId with | some s => s.refs | none => [])
  | .CfnWebACL _ => []
  | .Trail p => handles [p.Bucket, p.CloudWatchLogGroup]
  | .Alarm p => [p.Metric.source]
  | .CfnOutput p => p.Value.refs

/-- A child of the stack scope: its construct id and what it declares. -/
structure Construct where
  id : String
  resource : Resource
deriving DecidableEq, Repr

def Construct.kind (c : Construct) : Kind := c.resource.kind

def Construct.physicalName (c : Construct) : Option String := c.resource.physicalName

/-- One `Tags_Of(scope).Add(key, value, nil)` call inside the stack; `target = none`
is the stack itself. -/
structure TagAdd where
  target : Option Handle
  key : String
  value : String
deriving DecidableEq, Repr

/-- One `bucket.GrantRead(principal, objectsKeyPattern)` call. -/
structure Grant where
  principal : Principal
  objectsKeyPattern : String
deriving DecidableEq, Repr

/-! ## The CDK app and stack as explicit state -/

/-- The `awscdk.App` that `main` creates: the context it was started with and the
tags added on it. -/
structure App where
  context : String → Option CtxValue
  tags : List (String × String) := []

/-- The embedded `awscdk.Stack`: everything registered in the stack scope, and what
later calls attach to the registered constructs (tags, security group rules, bucket
policy statements, grants, and the secrets given a rotation schedule by
`AddRotationSchedule`). -/
structure Stack where
  id : String
  env : Option Environment
  context : String → Option CtxValue
  constructs : List Construct := []
  tags : List TagAdd := []
  ingressRules : List (Handle × Rule) := []
  egressRules : List (Handle × Rule) := []
  resourcePolicies : List (Handle × PolicyStatement) := []
  grants : List (Handle × Grant) := []
  rotationSchedules : List Handle := []

/-- The string CDK hands out for the account of an environment-agnostic stack
(the token that resolves to the `AWS::AccountId` pseudo parameter). -/
def accountToken : String := "$\x7bToken[AWS.AccountId]\x7d"

/-- Library call `awscdk.NewStack(scope, id, &sprops)`. -/
def NewStack (scope : App) (id : String) (sprops : StackProps) : Stack :=
  { id := id, env := sprops.Env, context := scope.context }

/-- Library call `stack.Node().TryGetContext(key)`. -/
def Stack.TryGetContext (s : Stack) (key : String) : Option CtxValue := s.context key

/-- The account of a stack with environment `env`: the configured account, or the token. -/
def accountOf (env : Option Environment) : String :=
  match env with
  | some e => e.Account.getD accountToken
  | none => accountToken

/-- Library call `stack.Account()`. -/
def Stack.Account (s : Stack) : String := accountOf s.env

/-- A `NewX(stack, id, props)` call: the construct becomes the last child. -/
def Stack.addChild (s : Stack) (id : String) (r : Resource) : Stack :=
  { s with constructs := s.constructs ++ [⟨id, r⟩] }

/-- `Tags_Of(c).Add(key, value, nil)` for a construct `c` of the stack. -/
def Stack.addTag (s : Stack) (target : Handle) (key value : String) : Stack :=
  { s with tags := s.tags ++ [⟨some target, key, value⟩] }

/-- `Tags_Of(stack).Add(key, value, nil)`. -/
def Stack.addStackTag (s : Stack) (key value : String) : Stack :=
  { s with tags := s.tags ++ [⟨none, key, value⟩] }

/-- TapStackProps defines the properties for the TapStack CDK stack. -/
structure TapStackProps where
  StackProps : Option StackProps
  EnvironmentSuffix : Option String
deriving DecidableEq, Repr

/-- TapStack represents the main CDK stack. -/
structure TapStack where
  Stack : Stack
  EnvironmentSuffix : String
  Vpc : Option Handle := none
  PrivateSubnets : Option SubnetList := none
  PublicSubnets : Option SubnetList := none
  BastionHost : Option Handle := none
  KmsKey : Option Handle := none
  SecurityGroups : GoMap Handle
  S3Bucket : Option Handle := none
  LoggingBucket : Option Handle := none
  CloudFrontOAI : Option Handle := none
  CloudFrontDist : Option Handle := none
  LambdaFunction : Option Handle := none
  AutoScalingGroup : Option Handle := none
  CloudTrail : Option Handle := none
  SNSAlerts : Option Handle := none
  WAF : Option Handle := none
  SSMParameters : GoMap Handle
  SecretsManager : Option Handle := none

/-- Registers a child in the embedded stack. -/
def TapStack.new (t : TapStack) (id : String) (r : Resource) : TapStack :=
  { t with Stack := t.Stack.addChild id r }

/-- Tags a construct of the embedded stack. -/
def TapStack.tag (t : TapStack) (target : Handle) (key value : String) : TapStack :=
  { t with Stack := t.Stack.addTag target key value }

/-! ## `lib/tap_stack.go` -/

/-- createKMSKey creates customer-managed KMS keys for encryption. -/
def createKMSKey (t : TapStack) : Except Panic TapStack := do
  let t := { t.new "ProdKMSKey" (.Key {
      Description := "Customer-managed KMS key for prod-" ++ t.EnvironmentSuffix ++ " environment"
      KeySpec := "SYMMETRIC_DEFAULT"
      KeyUsage := "ENCRYPT_DECRYPT"
      Policy := [
        { Effect := "ALLOW"
          Principals := [.accountRoot]
          Actions := ["kms:*"]
          Resources := [.lit "*"] },
        { Effect := "ALLOW"
          Principals := [.service "s3.amazonaws.com", .service "lambda.amazonaws.com",
            .service "logs.amazonaws.com"]
          Actions := ["kms:Encrypt", "kms:Decrypt", "kms:ReEncrypt*", "kms:GenerateDataKey*",
            "kms:DescribeKey"]
          Resources := [.lit "*"] }]
      RemovalPolicy := .DESTROY }) with KmsKey := some "ProdKMSKey" }
  let t := t.new "ProdKMSKeyAlias" (.Alias {
      AliasName := "alias/prod-" ++ t.EnvironmentSuffix ++ "-key"
      TargetKey := t.KmsKey })
  let key ← deref t.KmsKey
  return t.tag key "Name" ("prod-" ++ t.EnvironmentSuffix ++ "-kms-key")

/-- createNetworking creates VPC with public/private subnets across 2 AZs. -/
def createNetworking (t : TapStack) : Except Panic TapStack := do
  let t := { t.new "ProdVPC" (.Vpc {
      VpcName := "prod-" ++ t.EnvironmentSuffix ++ "-vpc"
      IpAddresses := "10.0.0.0/16"
      MaxAzs := 2
      EnableDnsHostnames := true
      EnableDnsSupport := true
      SubnetConfiguration := [
        { Name := "Public", SubnetType := .PUBLIC, CidrMask := 24 },
        { Name := "Private", SubnetType := .PRIVATE_WITH_EGRESS, CidrMask := 24 }] })
    with Vpc := some "ProdVPC" }
  let vpc ← deref t.Vpc
  let t := { t with PublicSubnets := some (.publicOf vpc) }
  let t := { t with PrivateSubnets := some (.privateOf vpc) }
  let flowLogsBucket : Handle := "VPCFlowLogsBucket"
  let t := t.new flowLogsBucket (.Bucket {
      BucketName := "prod-" ++ t.EnvironmentSuffix ++ "-vpc-flow-logs-" ++ t.Stack.Account
      Versioned := true
      RemovalPolicy := .DESTROY
      AutoDeleteObjects := true
      BlockPublicAccess := BlockPublicAccess_BLOCK_ALL
      EncryptionKey := t.KmsKey
      Encryption := .KMS })
  let t := t.new "VPCFlowLog" (.FlowLog {
      ResourceType_FromVpc := t.Vpc
      Destination_ToS3 := some flowLogsBucket
      Destination_KeyPrefix := "vpc-flow-logs/"
      TrafficType := "ALL" })
  let vpc ← deref t.Vpc
  let t := t.tag vpc "Name" ("prod-" ++ t.EnvironmentSuffix ++ "-vpc")
  return t.tag flowLogsBucket "Name" ("prod-" ++ t.EnvironmentSuffix ++ "-vpc-flow-logs")

/-- `sg.AddEgressRule(peer, Port_Tcp(port), description, remoteRule)`. -/
def TapStack.addEgressRule (t : TapStack) (sg : Handle) (peer : Peer) (port : Nat)
    (description : String) (remoteRule : Bool) : TapStack :=
  { t with Stack := { t.Stack with
      egressRules := t.Stack.egressRules ++ [(sg, ⟨peer, port, description, remoteRule⟩)] } }

/-- `sg.AddIngressRule(peer, Port_Tcp(port), description, remoteRule)`. -/
def TapStack.addIngressRule (t : TapStack) (sg : Handle) (peer : Peer) (port : Nat)
    (description : String) (remoteRule : Bool) : TapStack :=
  { t with Stack := { t.Stack with
      ingressRules := t.Stack.ingressRules ++ [(sg, ⟨peer, port, description, remoteRule⟩)] } }

/-- createSecurityGroups creates security groups with least privilege access. -/
def createSecurityGroups (t : TapStack) : Except Panic TapStack := do
  let lambdaSG : Handle := "LambdaSG"
  let t := t.new lambdaSG (.SecurityGroup {
      Vpc := t.Vpc
      Description := "Security group for Lambda functions" })
  let t := t.addEgressRule lambdaSG .AnyIpv4 443 "HTTPS outbound for AWS API calls" false
  let t := { t with SecurityGroups := t.SecurityGroups.set "lambda" lambdaSG }
  let ec2SG : Handle := "EC2SG"
  let t := t.new ec2SG (.SecurityGroup {
      Vpc := t.Vpc
      Description := "Security group for EC2 instances in private subnets" })
  let t := { t with SecurityGroups := t.SecurityGroups.set "ec2" ec2SG }
  let bastionSG : Handle := "BastionSG"
  let t := t.new bastionSG (.SecurityGroup {
      Vpc := t.Vpc
      Description := "Security group for bastion host SSH access" })
  let t := t.addIngressRule bastionSG .AnyIpv4 22
      "SSH access from anywhere (restrict to specific IPs in production)" false
  let t := { t with SecurityGroups := t.SecurityGroups.set "bastion" bastionSG }
  let t := t.addIngressRule ec2SG (.SecurityGroupId (.attr bastionSG "SecurityGroupId")) 22
      "SSH from bastion host" false
  let t := t.tag lambdaSG "Name" ("prod-" ++ t.EnvironmentSuffix ++ "-lambda-sg")
  let t := t.tag ec2SG "Name" ("prod-" ++ t.EnvironmentSuffix ++ "-ec2-sg")
  return t.tag bastionSG "Name" ("prod-" ++ t.EnvironmentSuffix ++ "-bastion-sg")

/-- `bucket.AddToResourcePolicy(statement)`. -/
def TapStack.addToResourcePolicy (t : TapStack) (bucket : Handle) (st : PolicyStatement) :
    TapStack :=
  { t with Stack := { t.Stack with
      resourcePolicies := t.Stack.resourcePolicies ++ [(bucket, st)] } }

/-- createS3Resources creates S3 buckets with customer-managed KMS encryption. -/
def createS3Resources (t : TapStack) : Except Panic TapStack := do
  let t := { t.new "ProdS3Bucket" (.Bucket {
      BucketName := "prod-" ++ t.EnvironmentSuffix ++ "-app-bucket-" ++ t.Stack.Account
      Versioned := true
      RemovalPolicy := .DESTROY
      AutoDeleteObjects := true
      BlockPublicAccess := BlockPublicAccess_BLOCK_ALL
      EncryptionKey := t.KmsKey
      Encryption := .KMS }) with S3Bucket := some "ProdS3Bucket" }
  let t := { t.new "ProdLoggingBucket" (.Bucket {
      BucketName := "prod-" ++ t.EnvironmentSuffix ++ "-logging-bucket-" ++ t.Stack.Account
      Versioned := true
      RemovalPolicy := .DESTROY
      AutoDeleteObjects := true
      BlockPublicAccess := {
        BlockPublicAcls := true
        BlockPublicPolicy := true
        IgnorePublicAcls := true
        RestrictPublicBuckets := false }
      ObjectOwnership := some "BUCKET_OWNER_PREFERRED"
      EncryptionKey := t.KmsKey
      Encryption := .KMS }) with LoggingBucket := some "ProdLoggingBucket" }
  let logging ← deref t.LoggingBucket
  let t := t.addToResourcePolicy logging {
      Effect := "ALLOW"
      Principals := [.service "cloudtrail.amazonaws.com"]
      Actions := ["s3:PutObject"]
      Resources := [.attrCat logging "BucketArn" "/*"]
      Conditions := [("StringEquals", "s3:x-amz-acl", "bucket-owner-full-control")] }
  let logging ← deref t.LoggingBucket
  let t := t.addToResourcePolicy logging {
      Effect := "ALLOW"
      Principals := [.service "cloudtrail.amazonaws.com"]
      Actions := ["s3:GetBucketAcl"]
      Resources := [.attr logging "BucketArn"] }
  let logging ← deref t.LoggingBucket
  let t := t.addToResourcePolicy logging {
      Effect := "ALLOW"
      Principals := [.service "cloudtrail.amazonaws.com"]
      Actions := ["s3:GetBucketLocation", "s3:GetBucketVersioning"]
      Resources := [.attr logging "BucketArn"] }
  let app ← deref t.S3Bucket
  let t := t.tag app "Name" ("prod-" ++ t.EnvironmentSuffix ++ "-app-bucket")
  let logging ← deref t.LoggingBucket
  return t.tag logging "Name" ("prod-" ++ t.EnvironmentSuffix ++ "-logging-bucket")

/-- createSecretsManager creates secrets with auto-rotation. -/
def createSecretsManager (t : TapStack) : Except Panic TapStack := do
  let t := { t.new "ProdAppSecrets" (.Secret {
      SecretName := "prod-" ++ t.EnvironmentSuffix ++ "/app-secrets"
      Description := "Application secrets for production environment"
      GenerateSecretString := {
        SecretStringTemplate := "\x7b\"username\": \"admin\"\x7d"
        GenerateStringKey := "password"
        ExcludeCharacters := "\"@/\\" }
      RemovalPolicy := .DESTROY }) with SecretsManager := some "ProdAppSecrets" }
  let secret ← deref t.SecretsManager
  return t.tag secret "Name" ("prod-" ++ t.EnvironmentSuffix ++ "-app-secrets")

/-- The map literal `parameters` of createSSMParameters. -/
def parameters (environmentSuffix : String) : List (String × String) :=
  [("app-environment", environmentSuffix),
   ("app-version", "1.0.0"),
   ("log-level", "INFO"),
   ("max-connections", "100")]

/-- The body of the `for key, value := range parameters` loop. -/
def ssmLoopBody (t : TapStack) (kv : String × String) : TapStack :=
  let param : Handle := "SSMParam" ++ kv.1
  let t := t.new param (.StringParameter {
      ParameterName := "/prod-" ++ t.EnvironmentSuffix ++ "/" ++ kv.1
      StringValue := kv.2
      Description := "Configuration parameter for " ++ kv.1 })
  { t with SSMParameters := t.SSMParameters.set kv.1 param }

/-- createSSMParameters creates Systems Manager parameters for configuration. -/
def createSSMParameters (range : MapRange) (t : TapStack) : Except Panic TapStack :=
  .ok ((range (parameters t.EnvironmentSuffix)).val.foldl ssmLoopBody t)

/-- createSNSAlerts creates SNS topic for security alerts. -/
def createSNSAlerts (t : TapStack) : Except Panic TapStack := do
  let t := { t.new "ProdSecurityAlerts" (.Topic {
      TopicName := "prod-" ++ t.EnvironmentSuffix ++ "-security-alerts"
      DisplayName := "Production Security Alerts" }) with SNSAlerts := some "ProdSecurityAlerts" }
  let topic ← deref t.SNSAlerts
  return t.tag topic "Name" ("prod-" ++ t.EnvironmentSuffix ++ "-security-alerts")

/-- The inline Python source handed to `Code_FromInline`; its text plays no part
in the composition and is not reproduced. -/
def lambdaCode : String := "index.py"

/-- createLambdaFunction creates Lambda function with proper IAM roles (least privilege). -/
def createLambdaFunction (t : TapStack) : Except Panic TapStack := do
  let bucket ← deref t.S3Bucket
  let bucket2 ← deref t.S3Bucket
  let key ← deref t.KmsKey
  let lambdaRole : Handle := "ProdLambdaRole"
  let t := t.new lambdaRole (.Role {
      RoleName := "prod-" ++ t.EnvironmentSuffix ++ "-lambda-role"
      AssumedBy := .service "lambda.amazonaws.com"
      ManagedPolicies := ["service-role/AWSLambdaVPCAccessExecutionRole"]
      InlinePolicies := [
        ("S3Access", [
          { Effect := "ALLOW"
            Actions := ["s3:GetObject", "s3:PutObject"]
            Resources := [.attr bucket "BucketArn", .attrCat bucket2 "BucketArn" "/*"] }]),
        ("KMSAccess", [
          { Effect := "ALLOW"
            Actions := ["kms:Encrypt", "kms:Decrypt", "kms:ReEncrypt*", "kms:GenerateDataKey*",
              "kms:DescribeKey"]
            Resources := [.attr key "KeyArn"] }])] })
  let logGroup : Handle := "ProdLambdaLogGroup"
  let t := t.new logGroup (.LogGroup {
      LogGroupName := "/aws/lambda/prod-" ++ t.EnvironmentSuffix ++ "-background-job"
      Retention := "ONE_MONTH"
      RemovalPolicy := .DESTROY })
  let bucket ← deref t.S3Bucket
  let t := { t.new "ProdLambdaFunction" (.Function {
      FunctionName := "prod-" ++ t.EnvironmentSuffix ++ "-background-job"
      Runtime := "PYTHON_3_9"
      Code := lambdaCode
      Handler := "index.lambda_handler"
      MemorySize := 256
      TimeoutSeconds := 30
      Role := some lambdaRole
      LogGroup := some logGroup
      Vpc := t.Vpc
      VpcSubnets := { Subnets := t.PrivateSubnets }
      SecurityGroups := [t.SecurityGroups "lambda"]
      Environment := [
        ("ENVIRONMENT", .lit t.EnvironmentSuffix),
        ("S3_BUCKET", .attr bucket "BucketName"),
        ("LOG_LEVEL", .lit "INFO")]
      Description := "Background job processing Lambda function"
      Tracing := "ACTIVE"
      Architecture := "X86_64" }) with LambdaFunction := some "ProdLambdaFunction" }
  let fn ← deref t.LambdaFunction
  let t := t.tag fn "Name" ("prod-" ++ t.EnvironmentSuffix ++ "-lambda")
  return t.tag lambdaRole "Name" ("prod-" ++ t.EnvironmentSuffix ++ "-lambda-role")

/-- createEC2Resources creates EC2 instances in private subnets only. -/
def createEC2Resources (t : TapStack) : Except Panic TapStack := do
  let ec2Role : Handle := "ProdEC2Role"
  let t := t.new ec2Role (.Role {
      RoleName := "prod-" ++ t.EnvironmentSuffix ++ "-ec2-role"
      AssumedBy := .service "ec2.amazonaws.com"
      ManagedPolicies := ["AmazonSSMManagedInstanceCore"] })
  let launchTemplate : Handle := "ProdLaunchTemplate"
  let t := t.new launchTemplate (.LaunchTemplate {
      LaunchTemplateName := "prod-" ++ t.EnvironmentSuffix ++ "-lt"
      InstanceType := "t3.micro"
      MachineImage := "LatestAmazonLinux2"
      Role := some ec2Role
      SecurityGroup := t.SecurityGroups "ec2"
      UserDataShebang := "#!/bin/bash" })
  let t := { t.new "ProdAutoScalingGroup" (.AutoScalingGroup {
      AutoScalingGroupName := "prod-" ++ t.EnvironmentSuffix ++ "-asg"
      Vpc := t.Vpc
      VpcSubnets := { Subnets := t.PrivateSubnets }
      LaunchTemplate := some launchTemplate
      MinCapacity := 1
      MaxCapacity := 3
      DesiredCapacity := 2 }) with AutoScalingGroup := some "ProdAutoScalingGroup" }
  let asg ← deref t.AutoScalingGroup
  let t := t.tag asg "Name" ("prod-" ++ t.EnvironmentSuffix ++ "-asg")
  return t.tag ec2Role "Name" ("prod-" ++ t.EnvironmentSuffix ++ "-ec2-role")

/-- createBastionHost creates secure bastion host for SSH access. -/
def createBastionHost (t : TapStack) : Except Panic TapStack := do
  let t := { t.new "ProdBastionHost" (.BastionHostLinux {
      Vpc := t.Vpc
      InstanceName := "prod-" ++ t.EnvironmentSuffix ++ "-bastion"
      InstanceType := "t3.nano"
      SecurityGroup := t.SecurityGroups "bastion"
      SubnetSelection := { SubnetType := some .PUBLIC } })
    with BastionHost := some "ProdBastionHost" }
  let bastion ← deref t.BastionHost
  return t.tag bastion "Name" ("prod-" ++ t.EnvironmentSuffix ++ "-bastion")

/-- `bucket.GrantRead(principal, objectsKeyPattern)`. -/
def TapStack.grantRead (t : TapStack) (bucket : Handle) (principal : Principal)
    (objectsKeyPattern : String) : TapStack :=
  { t with Stack := { t.Stack with
      grants := t.Stack.grants ++ [(bucket, ⟨principal, objectsKeyPattern⟩)] } }

/-- createCloudFront creates CloudFront distribution with WAF. -/
def createCloudFront (t : TapStack) : Except Panic TapStack := do
  let t := { t.new "ProdCloudFrontOAI" (.OriginAccessIdentity {
      Comment := "OAI for prod-" ++ t.EnvironmentSuffix ++ " S3 bucket" })
    with CloudFrontOAI := some "ProdCloudFrontOAI" }
  let bucket ← deref t.S3Bucket
  let oai ← deref t.CloudFrontOAI
  let t := t.grantRead bucket (.grantPrincipalOf oai) "*"
  let t := { t.new "ProdCloudFrontDist" (.Distribution {
      Comment := "CloudFront distribution for prod-" ++ t.EnvironmentSuffix
      DefaultBehavior := {
        Origin := { Bucket := t.S3Bucket, OriginAccessIdentity := t.CloudFrontOAI }
        ViewerProtocolPolicy := "REDIRECT_TO_HTTPS"
        CachePolicy := "CACHING_OPTIMIZED" }
      PriceClass := "PRICE_CLASS_100"
      EnableIpv6 := false
      EnableLogging := true
      LogBucket := t.LoggingBucket
      LogFilePrefix := "cloudfront-logs/"
      LogIncludesCookies := false }) with CloudFrontDist := some "ProdCloudFrontDist" }
  let dist ← deref t.CloudFrontDist
  return t.tag dist "Name" ("prod-" ++ t.EnvironmentSuffix ++ "-cloudfront")

/-- createWAF creates Web Application Firewall. -/
def createWAF (t : TapStack) : Except Panic TapStack :=
  .ok { t.new "ProdWAF" (.CfnWebACL {
      Name := "prod-" ++ t.EnvironmentSuffix ++ "-waf"
      Scope := "CLOUDFRONT"
      DefaultAction := "Allow"
      Rules := [
        { Name := "AWSManagedRulesCommonRuleSet"
          Priority := 1
          ManagedRuleGroup_VendorName := "AWS"
          ManagedRuleGroup_Name := "AWSManagedRulesCommonRuleSet"
          OverrideAction := "None"
          VisibilityConfig := {
            SampledRequestsEnabled := true
            CloudWatchMetricsEnabled := true
            MetricName := "CommonRuleSetMetric" } }]
      VisibilityConfig := {
        SampledRequestsEnabled := true
        CloudWatchMetricsEnabled := true
        MetricName := "prod-" ++ t.EnvironmentSuffix ++ "-waf" } }) with WAF := some "ProdWAF" }

/-- createMonitoring creates CloudTrail for compliance and monitoring. -/
def createMonitoring (t : TapStack) : Except Panic TapStack := do
  let trailLogGroup : Handle := "CloudTrailLogGroup"
  let t := t.new trailLogGroup (.LogGroup {
      LogGroupName := "/aws/cloudtrail/prod-" ++ t.EnvironmentSuffix
      Retention := "ONE_MONTH"
      RemovalPolicy := .DESTROY })
  let t := { t.new "ProdCloudTrail" (.Trail {
      TrailName := "prod-" ++ t.EnvironmentSuffix ++ "-cloudtrail"
      Bucket := t.LoggingBucket
      S3KeyPrefix := "cloudtrail-logs/"
      IncludeGlobalServiceEvents := true
      IsMultiRegionTrail := true
      EnableFileValidation := true
      SendToCloudWatchLogs := true
      CloudWatchLogGroup := some trailLogGroup }) with CloudTrail := some "ProdCloudTrail" }
  let fn ← deref t.LambdaFunction
  let t := t.new "LambdaErrorAlarm" (.Alarm {
      AlarmName := "prod-" ++ t.EnvironmentSuffix ++ "-lambda-errors"
      AlarmDescription := "Lambda function error rate"
      Metric := { source := fn, name := "Errors" }
      Threshold := 1
      EvaluationPeriods := 2
      TreatMissingData := "NOT_BREACHING" })
  let trail ← deref t.CloudTrail
  return t.tag trail "Name" ("prod-" ++ t.EnvironmentSuffix ++ "-cloudtrail")

/-- createOutputs creates CloudFormation outputs for important resources. -/
def createOutputs (t : TapStack) : Except Panic TapStack := do
  let vpc ← deref t.Vpc
  let t := t.new "VPCId" (.CfnOutput {
      Value := .attr vpc "VpcId"
      Description := "VPC ID"
      ExportName := "prod-" ++ t.EnvironmentSuffix ++ "-vpc-id" })
  let bucket ← deref t.S3Bucket
  let t := t.new "S3BucketName" (.CfnOutput {
      Value := .attr bucket "BucketName"
      Description := "S3 Bucket Name"
      ExportName := "prod-" ++ t.EnvironmentSuffix ++ "-s3-bucket" })
  let dist ← deref t.CloudFrontDist
  let t := t.new "CloudFrontDomainName" (.CfnOutput {
      Value := .attr dist "DomainName"
      Description := "CloudFront Distribution Domain Name"
      ExportName := "prod-" ++ t.EnvironmentSuffix ++ "-cloudfront-domain" })
  let fn ← deref t.LambdaFunction
  let t := t.new "LambdaFunctionArn" (.CfnOutput {
      Value := .attr fn "FunctionArn"
      Description := "Lambda Function ARN"
      ExportName := "prod-" ++ t.EnvironmentSuffix ++ "-lambda-arn" })
  let bastion ← deref t.BastionHost
  let t := t.new "BastionHostId" (.CfnOutput {
      Value := .attr bastion "InstanceId"
      Description := "Bastion Host Instance ID"
      ExportName := "prod-" ++ t.EnvironmentSuffix ++ "-bastion-id" })
  let key ← deref t.KmsKey
  return t.new "KMSKeyId" (.CfnOutput {
      Value := .attr key "KeyId"
      Description := "KMS Key ID"
      ExportName := "prod-" ++ t.EnvironmentSuffix ++ "-kms-key-id" })

/-- The assignment `sprops = *props.StackProps` under `if props != nil`. -/
def stackPropsOf (props : Option TapStackProps) : Except Panic StackProps :=
  match props with
  | some p =>
    match p.StackProps with
    | some sp => .ok sp
    | none => .error .nilDereference
  | none => .ok {}

/-- The "Get environment suffix" block of NewTapStack. -/
def resolveEnvironmentSuffix (props : Option TapStackProps) (stack : Stack) :
    Except Panic String :=
  match props.bind (fun p => p.EnvironmentSuffix) with
  | some s => .ok s
  | none =>
    match stack.TryGetContext "environmentSuffix" with
    | some suffix =>
      match suffix with
      | .strPtr (some s) => .ok s
      | .strPtr none => .error .nilDereference
      | _ => .error .typeAssertion
    | none => .ok "dev"

/-- The "Create infrastructure components in order" block of NewTapStack. -/
def createComponents (range : MapRange) (tapStack : TapStack) : Except Panic TapStack := do
  let tapStack ← createKMSKey tapStack
  let tapStack ← createNetworking tapStack
  let tapStack ← createSecurityGroups tapStack
  let tapStack ← createS3Resources tapStack
  let tapStack ← createSecretsManager tapStack
  let tapStack ← createSSMParameters range tapStack
  let tapStack ← createSNSAlerts tapStack
  let tapStack ← createLambdaFunction tapStack
  let tapStack ← createEC2Resources tapStack
  let tapStack ← createBastionHost tapStack
  let tapStack ← createCloudFront tapStack
  let tapStack ← createWAF tapStack
  let tapStack ← createMonitoring tapStack
  let tapStack ← createOutputs tapStack
  return tapStack

/-- NewTapStack creates a secure multi-tier web application infrastructure stack. -/
def NewTapStack (scope : App) (id : String) (props : Option TapStackProps)
    (range : MapRange) : Except Panic TapStack := do
  let sprops ← stackPropsOf props
  let stack := NewStack scope id sprops
  let environmentSuffix ← resolveEnvironmentSuffix props stack
  let stack := stack.addStackTag "Environment" environmentSuffix
  let stack := stack.addStackTag "Project" ("prod-" ++ environmentSuffix)
  let stack := stack.addStackTag "ManagedBy" "CDK"
  let tapStack : TapStack := {
    Stack := stack
    EnvironmentSuffix := environmentSuffix
    SecurityGroups := GoMap.empty
    SSMParameters := GoMap.empty }
  createComponents range tapStack

/-! ## `bin/tap.go` -/

/-- The process environment: the variables that are set, with their values. -/
abbrev Environ := String → Option String

/-- Library call `os.Getenv(key)`: the value, or the empty string when unset. -/
def os.Getenv (environ : Environ) (key : String) : String :=
  (environ key).getD ""

/-- getEnv gets an environment variable with a fallback value. -/
def getEnv (environ : Environ) (key fallback : String) : String :=
  let value := os.Getenv environ key
  if value ≠ "" then value else fallback

/-- The "Get environment suffix from context" block of main. -/
def mainEnvironmentSuffix (app : App) : String :=
  match app.context "environmentSuffix" with
  | some suffix =>
    match suffix with
    | .str suffixStr => suffixStr
    | _ => "dev"
  | none => "dev"

/-- `Tags_Of(app).Add(key, value, nil)`. -/
def App.addTag (app : App) (key value : String) : App :=
  { app with tags := app.tags ++ [(key, value)] }

/-- What one run of main has built when it reaches `app.Synth(nil)`. -/
structure MainRun where
  app : App
  stackName : String
  props : TapStackProps
  stack : Except Panic TapStack

/-- The function main, run with the given CDK context and process environment. -/
def main (context : String → Option CtxValue) (environ : Environ) (range : MapRange) :
    MainRun :=
  let app : App := { context := context }
  let environmentSuffix := mainEnvironmentSuffix app
  let stackName := "TapStack" ++ environmentSuffix
  let repositoryName := getEnv environ "REPOSITORY" "unknown"
  let commitAuthor := getEnv environ "COMMIT_AUTHOR" "unknown"
  let app := app.addTag "Environment" environmentSuffix
  let app := app.addTag "Repository" repositoryName
  let app := app.addTag "Author" commitAuthor
  let account := getEnv environ "CDK_DEFAULT_ACCOUNT" ""
  let region := getEnv environ "CDK_DEFAULT_REGION" ""
  let env : Option Environment :=
    if account ≠ "" ∧ region ≠ "" then some { Account := some account, Region := some region }
    else none
  let props : TapStackProps := {
    StackProps := some { Env := env }
    EnvironmentSuffix := some environmentSuffix }
  { app := app
    stackName := stackName
    props := props
    stack := NewTapStack app stackName (some props) range }

/-! ## Views of a composed stack used to state properties -/

/-- Whether the construct declares a resource of kind `k`. -/
def Construct.hasKind (k : Kind) (c : Construct) : Bool := decide (c.kind = k)

/-- Children of the stack that declare a resource of kind `k`, in registration order. -/
def Stack.ofKind (s : Stack) (k : Kind) : List Construct :=
  s.constructs.filter (Construct.hasKind k)

/-- Number of children of the stack that declare a resource of kind `k`. -/
def Stack.count (s : Stack) (k : Kind) : Nat := (s.ofKind k).length

/-- The id and props of a construct that declares a bucket. -/
def Construct.asBucket (c : Construct) : Option (String × BucketProps) :=
  match c.resource with
  | .Bucket p => some (c.id, p)
  | _ => none

/-- The bucket props of every bucket the stack declares, in registration order. -/
def Stack.buckets (s : Stack) : List (String × BucketProps) :=
  s.constructs.filterMap Construct.asBucket

/-- Two constructs clash when they declare the same kind of resource under the same
physical name. -/
def Construct.nameClash (a b : Construct) : Prop :=
  a.kind = b.kind ∧ ∃ n, a.physicalName = some n ∧ b.physicalName = some n

/-- No two children of the stack, at different positions, declare the same kind of
resource under the same physical name. -/
def Stack.namesDistinct (s : Stack) : Prop :=
  s.constructs.Pairwise (fun a b => ¬ a.nameClash b)

/-- The kind and physical name of a construct that is given a physical name. -/
def Construct.nameKey (c : Construct) : Option (Kind × String) :=
  c.physicalName.map (fun n => (c.kind, n))

/-- The physical names the stack assigns to its resources of kind `k`. -/
def Stack.namesOf (s : Stack) (k : Kind) : List (Option String) :=
  (s.ofKind k).map Construct.physicalName

/-- The construct one iteration of the SSM loop registers. -/
def ssmConstruct (environmentSuffix : String) (kv : String × String) : Construct :=
  ⟨"SSMParam" ++ kv.1, .StringParameter {
      ParameterName := "/prod-" ++ environmentSuffix ++ "/" ++ kv.1
      StringValue := kv.2
      Description := "Configuration parameter for " ++ kv.1 }⟩

/-- The constructs the SSM loop registers, in the order the range visits the map. -/
def ssmBlock (environmentSuffix : String) (range : MapRange) : List Construct :=
  (range (parameters environmentSuffix)).val.map (ssmConstruct environmentSuffix)

/-- The bindings the SSM loop stores, in the order the range visits the map. -/
def ssmBindings (environmentSuffix : String) (range : MapRange) (m : GoMap Handle) :
    GoMap Handle :=
  (range (parameters environmentSuffix)).val.foldl
    (fun m kv => m.set kv.1 ("SSMParam" ++ kv.1)) m

/-- The kind/name keys of the four SSM parameters, in the order of the map literal. -/
def ssmKeys (s : String) : List (Kind × String) :=
  [(.StringParameter, "/prod-" ++ s ++ "/" ++ "app-environment"),
   (.StringParameter, "/prod-" ++ s ++ "/" ++ "app-version"),
   (.StringParameter, "/prod-" ++ s ++ "/" ++ "log-level"),
   (.StringParameter, "/prod-" ++ s ++ "/" ++ "max-connections")]

/-! ### Reference graph -/

/-- The construct ids registered in the stack scope, in registration order. -/
def Stack.ids (s : Stack) : List String := s.constructs.map Construct.id

/-- References attached to constructs after their creation, as (holder, target) pairs:
the peers of added security group rules, the principals and resources of added
resource-policy statements, and the principals of grants. -/
def Stack.attachedEdges (s : Stack) : List (Handle × Handle) :=
  s.ingressRules.flatMap (fun r => r.2.peer.refs.map (fun m => (r.1, m))) ++
  s.egressRules.flatMap (fun r => r.2.peer.refs.map (fun m => (r.1, m))) ++
  s.resourcePolicies.flatMap (fun p => p.2.refs.map (fun m => (p.1, m))) ++
  s.grants.flatMap (fun g => g.2.principal.refs.map (fun m => (g.1, m)))

/-- The references a construct is created with, as (holder, target) pairs. -/
def Construct.creationEdges (c : Construct) : List (Handle × Handle) :=
  c.resource.refs.map (fun m => (c.id, m))

/-- The reference graph: an edge from each construct to every construct it references. -/
def Stack.edges (s : Stack) : List (Handle × Handle) :=
  s.constructs.flatMap Construct.creationEdges ++ s.attachedEdges

/-- Whether an edge is a self-reference or points backwards in `referenceOrder`. -/
def backwardOrSelf (order : List Handle) (e : Handle × Handle) : Bool :=
  decide (e.1 = e.2) || decide (order.indexOf e.2 < order.indexOf e.1)

/-- The reference graph has no cycle, of any length. -/
def Stack.Acyclic (s : Stack) : Prop :=
  ∀ n, ¬ Relation.TransGen (fun a b => (a, b) ∈ s.edges) n n

/-- The reference graph has no cycle through two or more distinct constructs. -/
def Stack.AcyclicApartFromSelfReferences (s : Stack) : Prop :=
  ∀ n, ¬ Relation.TransGen (fun a b => (a, b) ∈ s.edges ∧ a ≠ b) n n

/-- An order of the construct ids in which every reference other than a
self-reference points backwards. -/
def referenceOrder : List Handle :=
  ["ProdKMSKey", "ProdKMSKeyAlias", "ProdVPC", "VPCFlowLogsBucket", "VPCFlowLog", "LambdaSG",
   "BastionSG", "EC2SG", "ProdCloudFrontOAI", "ProdS3Bucket", "ProdLoggingBucket",
   "ProdAppSecrets", "ProdSecurityAlerts", "ProdLambdaRole", "ProdLambdaLogGroup",
   "ProdLambdaFunction", "ProdEC2Role", "ProdLaunchTemplate", "ProdAutoScalingGroup",
   "ProdBastionHost", "ProdCloudFrontDist", "ProdWAF", "CloudTrailLogGroup", "ProdCloudTrail",
   "LambdaErrorAlarm", "VPCId", "S3BucketName", "CloudFrontDomainName", "LambdaFunctionArn",
   "BastionHostId", "KMSKeyId"]

/-! ### Output document -/

/-- Whether the construct declares a resource of another kind than `k`. -/
def Construct.notKind (k : Kind) (c : Construct) : Bool := !c.hasKind k

/-- What `app.Synth` writes for the stack: the resources and the outputs, each in the
order in which the composition registered them (the composition code has no sorting
step of its own), together with everything attached to them. -/
structure Document where
  resources : List Construct
  outputs : List Construct
  tags : List TagAdd
  ingressRules : List (Handle × Rule)
  egressRules : List (Handle × Rule)
  resourcePolicies : List (Handle × PolicyStatement)
  grants : List (Handle × Grant)
deriving DecidableEq

/-- The document of a composed stack. -/
def Stack.document (s : Stack) : Document :=
  { resources := s.constructs.filter (Construct.notKind .CfnOutput)
    outputs := s.ofKind .CfnOutput
    tags := s.tags
    ingressRules := s.ingressRules
    egressRules := s.egressRules
    resourcePolicies := s.resourcePolicies
    grants := s.grants }

/-! ### Tags -/

/-- The tags added on one target (`none` is the stack itself), in call order. -/
def Stack.tagsOn (s : Stack) (target : Option Handle) : List (String × String) :=
  (s.tags.filter (fun a => a.target = target)).map (fun a => (a.key, a.value))

/-- The value a sequence of `Add` calls leaves for a key: the last one added. -/
def lastValue (adds : List (String × String)) (key : String) : Option String :=
  adds.reverse.lookup key

/-- Modelled from the spec: the tag merge performed at synthesis, which is library code
and not part of the sources. "Per-node tags take precedence over global tags on key
collision (node-local override wins)": the value set on the construct itself wins over
the value set on the stack, which wins over the value set on the app. -/
def resolvedTag (app : App) (s : Stack) (c : Construct) (key : String) : Option String :=
  match lastValue (s.tagsOn (some c.id)) key with
  | some v => some v
  | none =>
    match lastValue (s.tagsOn none) key with
    | some v => some v
    | none => lastValue app.tags key

/-- A range that visits the entries in the order the literal lists them. -/
def rangeInOrder : MapRange := fun m => ⟨m, List.Perm.refl m⟩

/-- A range that visits the entries in the opposite order. -/
def rangeReversed : MapRange := fun m => ⟨m.reverse, List.reverse_perm m⟩

/-! ### Typed views of the declared resources -/

/-- The props of an Auto Scaling group declaration. -/
def Resource.asAutoScalingGroup : Resource → Option AutoScalingGroupProps
  | .AutoScalingGroup p => some p
  | _ => none

/-- The props of a Lambda function declaration. -/
def Resource.asFunction : Resource → Option FunctionProps
  | .Function p => some p
  | _ => none

/-- The props of a bastion host declaration. -/
def Resource.asBastionHostLinux : Resource → Option BastionHostLinuxProps
  | .BastionHostLinux p => some p
  | _ => none

/-- The props of an IAM role declaration. -/
def Resource.asRole : Resource → Option RoleProps
  | .Role p => some p
  | _ => none

/-- The props of a CloudFront distribution declaration. -/
def Resource.asDistribution : Resource → Option DistributionProps
  | .Distribution p => some p
  | _ => none

/-- The props of a web ACL declaration. -/
def Resource.asCfnWebACL : Resource → Option CfnWebACLProps
  | .CfnWebACL p => some p
  | _ => none

/-- The props of an output declaration. -/
def Resource.asCfnOutput : Resource → Option CfnOutputProps
  | .CfnOutput p => some p
  | _ => none

/-- The props of an SSM parameter declaration. -/
def Resource.asStringParameter : Resource → Option StringParameterProps
  | .StringParameter p => some p
  | _ => none

/-- The id and selected props of a construct, when the selection applies to it. -/
def Construct.select {α : Type} (sel : Resource → Option α) (c : Construct) :
    Option (String × α) :=
  (sel c.resource).map (fun p => (c.id, p))

/-- The ids and props of the declarations a selection applies to, in registration order. -/
def Stack.select {α : Type} (s : Stack) (sel : Resource → Option α) : List (String × α) :=
  s.constructs.filterMap (Construct.select sel)

/-- The export names of the outputs, in registration order. -/
def Stack.exportNames (s : Stack) : List String :=
  (s.select Resource.asCfnOutput).map (fun o => o.2.ExportName)

/-- The props of a security group declaration. -/
def Resource.asSecurityGroup : Resource → Option SecurityGroupProps
  | .SecurityGroup p => some p
  | _ => none

/-- The subnet selection of a compute resource (Lambda function, Auto Scaling group,
bastion host). -/
def Resource.subnetSelection : Resource → Option SubnetSelection
  | .Function p => some p.VpcSubnets
  | .AutoScalingGroup p => some p.VpcSubnets
  | .BastionHostLinux p => some p.SubnetSelection
  | _ => none

/-- Whether a subnet selection asks for public subnets, by type or by listing the
public subnets of a VPC. -/
def SubnetSelection.selectsPublic (sel : SubnetSelection) : Bool :=
  decide (sel.SubnetType = some .PUBLIC) ||
    (match sel.Subnets with
     | some (.publicOf _) => true
     | _ => false)

/-- The security groups that have at least one added ingress rule on a port other
than `port`. -/
def Stack.ingressOffPort (s : Stack) (port : Nat) : List Handle :=
  (s.ingressRules.filter (fun r => decide (r.2.tcpPort ≠ port))).map Prod.fst

/-- All statements of the inline policies of a role. -/
def RoleProps.inlineStatements (p : RoleProps) : List PolicyStatement :=
  p.InlinePolicies.flatMap Prod.snd

/-! ### Account components in names -/

/-- A name embeds the account component when the account string occurs in it. -/
def embedsAccount (account name : String) : Prop := account.data <:+: name.data

instance (account name : String) : Decidable (embedsAccount account name) :=
  inferInstanceAs (Decidable (account.data <:+: name.data))

/-- No physical name assigned in the stack embeds the stack's account. -/
def Stack.NamesOmitAccount (s : Stack) : Prop :=
  ∀ c ∈ s.constructs, ∀ n, c.physicalName = some n → ¬ embedsAccount s.Account n

/-! ### Secrets, bucket names and nil props -/

/-- The props of a secret declaration. -/
def Resource.asSecret : Resource → Option SecretProps
  | .Secret p => some p
  | _ => none

/-- The physical name the stack gives the bucket declared under `id`. -/
def Stack.bucketName (s : Stack) (id : String) : Option String :=
  (s.buckets.lookup id).map BucketProps.BucketName

/-- The props of a declaration that hold a construct handle (nil or not), in the
order the source lists them. -/
def Resource.handleProps : Resource → List (Option Handle)
  | .Alias p => [p.TargetKey]
  | .Bucket p => [p.EncryptionKey]
  | .FlowLog p => [p.ResourceType_FromVpc, p.Destination_ToS3]
  | .SecurityGroup p => [p.Vpc]
  | .Function p => [p.Role, p.LogGroup, p.Vpc] ++ p.SecurityGroups
  | .LaunchTemplate p => [p.Role, p.SecurityGroup]
  | .AutoScalingGroup p => [p.Vpc, p.LaunchTemplate]
  | .BastionHostLinux p => [p.Vpc, p.SecurityGroup]
  | .Distribution p =>
      [p.DefaultBehavior.Origin.Bucket, p.DefaultBehavior.Origin.OriginAccessIdentity,
       p.LogBucket]
  | .Trail p => [p.Bucket, p.CloudWatchLogGroup]
  | _ => []

/-- The props of a declaration that are assigned the field `t.PrivateSubnets`. -/
def Resource.subnetListProps : Resource → List (Option SubnetList)
  | .Function p => [p.VpcSubnets.Subnets]
  | .AutoScalingGroup p => [p.VpcSubnets.Subnets]
  | _ => []

/-- Whether no prop of the declaration that is read from a TapStack field or from the
SecurityGroups map is nil. -/
def Construct.nilFree (c : Construct) : Bool :=
  c.resource.handleProps.all Option.isSome && c.resource.subnetListProps.all Option.isSome

/-- No declaration of the stack holds a nil where a TapStack field or a SecurityGroups
entry was read. -/
def Stack.NilFree (s : Stack) : Prop := ∀ c ∈ s.constructs, c.nilFree = true

/-- The TapStack fields and the SecurityGroups map that one create step assigns and a
later one reads: KmsKey, Vpc, PrivateSubnets, SecurityGroups, S3Bucket, LoggingBucket,
LambdaFunction, CloudFrontDist and BastionHost. -/
def TapStack.crossStepFields (t : TapStack) :
    Option Handle × Option Handle × Option SubnetList × GoMap Handle × Option Handle ×
      Option Handle × Option Handle × Option Handle × Option Handle :=
  (t.KmsKey, t.Vpc, t.PrivateSubnets, t.SecurityGroups, t.S3Bucket, t.LoggingBucket,
    t.LambdaFunction, t.CloudFrontDist, t.BastionHost)

/-! ### The composed stack -/

/-- The state NewTapStack returns on props that carry stack props and a suffix, written
out field by field: the constructs in registration order (the SSM parameters as the block
the loop registers), what later calls attached to them, and the TapStack fields. -/
def composedStack (scope : App) (id : String) (sp : StackProps) (s : String)
    (range : MapRange) : TapStack :=
  { Stack :=
      { id := id, env := sp.Env, context := scope.context,
        constructs :=
          [{ id := "ProdKMSKey",
             resource := Resource.Key
               { Description := "Customer-managed KMS key for prod-" ++ s ++ " environment",
                 KeySpec := "SYMMETRIC_DEFAULT", KeyUsage := "ENCRYPT_DECRYPT",
                 Policy :=
                   [{ Effect := "ALLOW", Principals := [Principal.accountRoot],
                      Actions := ["kms:*"], Resources := [Str.lit "*"], Conditions := [] },
                    { Effect := "ALLOW",
                      Principals :=
                        [Principal.service "s3.amazonaws.com",
                         Principal.service "lambda.amazonaws.com",
                         Principal.service "logs.amazonaws.com"],
                      Actions :=
                        ["kms:Encrypt", "kms:Decrypt", "kms:ReEncrypt*",
                         "kms:GenerateDataKey*", "kms:DescribeKey"],
                      Resources := [Str.lit "*"], Conditions := [] }],
                 RemovalPolicy := RemovalPolicy.DESTROY } },
           { id := "ProdKMSKeyAlias",
             resource := Resource.Alias
               { AliasName := "alias/prod-" ++ s ++ "-key", TargetKey := some "ProdKMSKey" } },
           { id := "ProdVPC",
             resource := Resource.Vpc
               { VpcName := "prod-" ++ s ++ "-vpc", IpAddresses := "10.0.0.0/16", MaxAzs := 2,
                 EnableDnsHostnames := true, EnableDnsSupport := true,
                 SubnetConfiguration :=
                   [{ Name := "Public", SubnetType := SubnetType.PUBLIC, CidrMask := 24 },
                    { Name := "Private", SubnetType := SubnetType.PRIVATE_WITH_EGRESS,
                      CidrMask := 24 }] } },
           { id := "VPCFlowLogsBucket",
             resource := Resource.Bucket
               { BucketName := "prod-" ++ s ++ "-vpc-flow-logs-" ++ accountOf sp.Env,
                 Versioned := true, RemovalPolicy := RemovalPolicy.DESTROY,
                 AutoDeleteObjects := true, BlockPublicAccess := BlockPublicAccess_BLOCK_ALL,
                 ObjectOwnership := none, EncryptionKey := some "ProdKMSKey",
                 Encryption := BucketEncryption.KMS } },
           { id := "VPCFlowLog",
             resource := Resource.FlowLog
               { ResourceType_FromVpc := some "ProdVPC",
                 Destination_ToS3 := some "VPCFlowLogsBucket",
                 Destination_KeyPrefix := "vpc-flow-logs/", TrafficType := "ALL" } },
           { id := "LambdaSG",
             resource := Resource.SecurityGroup
               { Vpc := some "ProdVPC", Description := "Security group for Lambda functions" } },
           { id := "EC2SG",
             resource := Resource.SecurityGroup
               { Vpc := some "ProdVPC",
                 Description := "Security group for EC2 instances in private subnets" } },
           { id := "BastionSG",
             resource := Resource.SecurityGroup
               { Vpc := some "ProdVPC",
                 Description := "Security group for bastion host SSH access" } },
           { id := "ProdS3Bucket",
             resource := Resource.Bucket
               { BucketName := "prod-" ++ s ++ "-app-bucket-" ++ accountOf sp.Env,
                 Versioned := true, RemovalPolicy := RemovalPolicy.DESTROY,
                 AutoDeleteObjects := true, BlockPublicAccess := BlockPublicAccess_BLOCK_ALL,
                 ObjectOwnership := none, EncryptionKey := some "ProdKMSKey",
                 Encryption := BucketEncryption.KMS } },
           { id := "ProdLoggingBucket",
             resource := Resource.Bucket
               { BucketName := "prod-" ++ s ++ "-logging-bucket-" ++ accountOf sp.Env,
                 Versioned := true, RemovalPolicy := RemovalPolicy.DESTROY,
                 AutoDeleteObjects := true,
                 BlockPublicAccess :=
                   { BlockPublicAcls := true, BlockPublicPolicy := true,
                     IgnorePublicAcls := true, RestrictPublicBuckets := false },
                 ObjectOwnership := some "BUCKET_OWNER_PREFERRED",
                 EncryptionKey := some "ProdKMSKey", Encryption := BucketEncryption.KMS } },
           { id := "ProdAppSecrets",
             resource := Resource.Secret
               { SecretName := "prod-" ++ s ++ "/app-secrets",
                 Description := "Application secrets for production environment",
                 GenerateSecretString :=
                   { SecretStringTemplate := "\x7b\"username\": \"admin\"\x7d",
                     GenerateStringKey := "password", ExcludeCharacters := "\"@/\\" },
                 RemovalPolicy := RemovalPolicy.DESTROY } }]
          ++ ssmBlock s range
          ++ [{ id := "ProdSecurityAlerts",
                resource := Resource.Topic
                  { TopicName := "prod-" ++ s ++ "-security-alerts",
                    DisplayName := "Production Security Alerts" } },
              { id := "ProdLambdaRole",
                resource := Resource.Role
                  { RoleName := "prod-" ++ s ++ "-lambda-role",
                    AssumedBy := Principal.service "lambda.amazonaws.com",
                    ManagedPolicies := ["service-role/AWSLambdaVPCAccessExecutionRole"],
                    InlinePolicies :=
                      [("S3Access",
                        [{ Effect := "ALLOW", Principals := [],
                           Actions := ["s3:GetObject", "s3:PutObject"],
                           Resources :=
                             [Str.attr "ProdS3Bucket" "BucketArn",
                              Str.attrCat "ProdS3Bucket" "BucketArn" "/*"],
                           Conditions := [] }]),
                       ("KMSAccess",
                        [{ Effect := "ALLOW", Principals := [],
                           Actions :=
                             ["kms:Encrypt", "kms:Decrypt", "kms:ReEncrypt*",
                              "kms:GenerateDataKey*", "kms:DescribeKey"],
                           Resources := [Str.attr "ProdKMSKey" "KeyArn"], Conditions := [] }])] } },
              { id := "ProdLambdaLogGroup",
                resource := Resource.LogGroup
                  { LogGroupName := "/aws/lambda/prod-" ++ s ++ "-background-job",
                    Retention := "ONE_MONTH", RemovalPolicy := RemovalPolicy.DESTROY } },
              { id := "ProdLambdaFunction",
                resource := Resource.Function
                  { FunctionName := "prod-" ++ s ++ "-background-job", Runtime := "PYTHON_3_9",
                    Code := lambdaCode, Handler := "index.lambda_handler", MemorySize := 256,
                    TimeoutSeconds := 30, Role := some "ProdLambdaRole",
                    LogGroup := some "ProdLambdaLogGroup", Vpc := some "ProdVPC",
                    VpcSubnets :=
                      { Subnets := some (SubnetList.privateOf "ProdVPC"), SubnetType := none },
                    SecurityGroups := [some "LambdaSG"],
                    Environment :=
                      [("ENVIRONMENT", Str.lit s),
                       ("S3_BUCKET", Str.attr "ProdS3Bucket" "BucketName"),
                       ("LOG_LEVEL", Str.lit "INFO")],
                    Description := "Background job processing Lambda function",
                    Tracing := "ACTIVE", Architecture := "X86_64" } },
              { id := "ProdEC2Role",
                resource := Resource.Role
                  { RoleName := "prod-" ++ s ++ "-ec2-role",
                    AssumedBy := Principal.service "ec2.amazonaws.com",
                    ManagedPolicies := ["AmazonSSMManagedInstanceCore"], InlinePolicies := [] } },
              { id := "ProdLaunchTemplate",
                resource := Resource.LaunchTemplate
                  { LaunchTemplateName := "prod-" ++ s ++ "-lt", InstanceType := "t3.micro",
                    MachineImage := "LatestAmazonLinux2", Role := some "ProdEC2Role",
                    SecurityGroup := some "EC2SG", UserDataShebang := "#!/bin/bash" } },
              { id := "ProdAutoScalingGroup",
                resource := Resource.AutoScalingGroup
                  { AutoScalingGroupName := "prod-" ++ s ++ "-asg", Vpc := some "ProdVPC",
                    VpcSubnets :=
                      { Subnets := some (SubnetList.privateOf "ProdVPC"), SubnetType := none },
                    LaunchTemplate := some "ProdLaunchTemplate", MinCapacity := 1,
                    MaxCapacity := 3, DesiredCapacity := 2 } },
              { id := "ProdBastionHost",
                resource := Resource.BastionHostLinux
                  { Vpc := some "ProdVPC", InstanceName := "prod-" ++ s ++ "-bastion",
                    InstanceType := "t3.nano", SecurityGroup := some "BastionSG",
                    SubnetSelection :=
                      { Subnets := none, SubnetType := some SubnetType.PUBLIC } } },
              { id := "ProdCloudFrontOAI",
                resource := Resource.OriginAccessIdentity
                  { Comment := "OAI for prod-" ++ s ++ " S3 bucket" } },
              { id := "ProdCloudFrontDist",
                resource := Resource.Distribution
                  { Comment := "CloudFront distribution for prod-" ++ s,
                    DefaultBehavior :=
                      { Origin :=
                          { Bucket := some "ProdS3Bucket",
                            OriginAccessIdentity := some "ProdCloudFrontOAI" },
                        ViewerProtocolPolicy := "REDIRECT_TO_HTTPS",
                        CachePolicy := "CACHING_OPTIMIZED" },
                    PriceClass := "PRICE_CLASS_100", EnableIpv6 := false,
                    EnableLogging := true, LogBucket := some "ProdLoggingBucket",
                    LogFilePrefix := "cloudfront-logs/", LogIncludesCookies := false,
                    WebAclId := none } },
              { id := "ProdWAF",
                resource := Resource.CfnWebACL
                  { Name := "prod-" ++ s ++ "-waf", Scope := "CLOUDFRONT",
                    DefaultAction := "Allow",
                    Rules :=
                      [{ Name := "AWSManagedRulesCommonRuleSet", Priority := 1,
                         ManagedRuleGroup_VendorName := "AWS",
                         ManagedRuleGroup_Name := "AWSManagedRulesCommonRuleSet",
                         OverrideAction := "None",
                         VisibilityConfig :=
                           { SampledRequestsEnabled := true, CloudWatchMetricsEnabled := true,
                             MetricName := "CommonRuleSetMetric" } }],
                    VisibilityConfig :=
                      { SampledRequestsEnabled := true, CloudWatchMetricsEnabled := true,
                        MetricName := "prod-" ++ s ++ "-waf" } } },
              { id := "CloudTrailLogGroup",
                resource := Resource.LogGroup
                  { LogGroupName := "/aws/cloudtrail/prod-" ++ s, Retention := "ONE_MONTH",
                    RemovalPolicy := RemovalPolicy.DESTROY } },
              { id := "ProdCloudTrail",
                resource := Resource.Trail
                  { TrailName := "prod-" ++ s ++ "-cloudtrail",
                    Bucket := some "ProdLoggingBucket", S3KeyPrefix := "cloudtrail-logs/",
                    IncludeGlobalServiceEvents := true, IsMultiRegionTrail := true,
                    EnableFileValidation := true, SendToCloudWatchLogs := true,
                    CloudWatchLogGroup := some "CloudTrailLogGroup" } },
              { id := "LambdaErrorAlarm",
                resource := Resource.Alarm
                  { AlarmName := "prod-" ++ s ++ "-lambda-errors",
                    AlarmDescription := "Lambda function error rate",
                    Metric := { source := "ProdLambdaFunction", name := "Errors" },
                    Threshold := 1, EvaluationPeriods := 2,
                    TreatMissingData := "NOT_BREACHING" } },
              { id := "VPCId",
                resource := Resource.CfnOutput
                  { Value := Str.attr "ProdVPC" "VpcId", Description := "VPC ID",
                    ExportName := "prod-" ++ s ++ "-vpc-id" } },
              { id := "S3BucketName",
                resource := Resource.CfnOutput
                  { Value := Str.attr "ProdS3Bucket" "BucketName",
                    Description := "S3 Bucket Name",
                    ExportName := "prod-" ++ s ++ "-s3-bucket" } },
              { id := "CloudFrontDomainName",
                resource := Resource.CfnOutput
                  { Value := Str.attr "ProdCloudFrontDist" "DomainName",
                    Description := "CloudFront Distribution Domain Name",
                    ExportName := "prod-" ++ s ++ "-cloudfront-domain" } },
              { id := "LambdaFunctionArn",
                resource := Resource.CfnOutput
                  { Value := Str.attr "ProdLambdaFunction" "FunctionArn",
                    Description := "Lambda Function ARN",
                    ExportName := "prod-" ++ s ++ "-lambda-arn" } },
              { id := "BastionHostId",
                resource := Resource.CfnOutput
                  { Value := Str.attr "ProdBastionHost" "InstanceId",
                    Description := "Bastion Host Instance ID",
                    ExportName := "prod-" ++ s ++ "-bastion-id" } },
              { id := "KMSKeyId",
                resource := Resource.CfnOutput
                  { Value := Str.attr "ProdKMSKey" "KeyId", Description := "KMS Key ID",
                    ExportName := "prod-" ++ s ++ "-kms-key-id" } }],
        tags :=
          [{ target := none, key := "Environment", value := s },
           { target := none, key := "Project", value := "prod-" ++ s },
           { target := none, key := "ManagedBy", value := "CDK" },
           { target := some "ProdKMSKey", key := "Name", value := "prod-" ++ s ++ "-kms-key" },
           { target := some "ProdVPC", key := "Name", value := "prod-" ++ s ++ "-vpc" },
           { target := some "VPCFlowLogsBucket", key := "Name",
             value := "prod-" ++ s ++ "-vpc-flow-logs" },
           { target := some "LambdaSG", key := "Name", value := "prod-" ++ s ++ "-lambda-sg" },
           { target := some "EC2SG", key := "Name", value := "prod-" ++ s ++ "-ec2-sg" },
           { target := some "BastionSG", key := "Name",
             value := "prod-" ++ s ++ "-bastion-sg" },
           { target := some "ProdS3Bucket", key := "Name",
             value := "prod-" ++ s ++ "-app-bucket" },
           { target := some "ProdLoggingBucket", key := "Name",
             value := "prod-" ++ s ++ "-logging-bucket" },
           { target := some "ProdAppSecrets", key := "Name",
             value := "prod-" ++ s ++ "-app-secrets" },
           { target := some "ProdSecurityAlerts", key := "Name",
             value := "prod-" ++ s ++ "-security-alerts" },
           { target := some "ProdLambdaFunction", key := "Name",
             value := "prod-" ++ s ++ "-lambda" },
           { target := some "ProdLambdaRole", key := "Name",
             value := "prod-" ++ s ++ "-lambda-role" },
           { target := some "ProdAutoScalingGroup", key := "Name",
             value := "prod-" ++ s ++ "-asg" },
           { target := some "ProdEC2Role", key := "Name",
             value := "prod-" ++ s ++ "-ec2-role" },
           { target := some "ProdBastionHost", key := "Name",
             value := "prod-" ++ s ++ "-bastion" },
           { target := some "ProdCloudFrontDist", key := "Name",
             value := "prod-" ++ s ++ "-cloudfront" },
           { target := some "ProdCloudTrail", key := "Name",
             value := "prod-" ++ s ++ "-cloudtrail" }],
        ingressRules :=
          [("BastionSG",
            { peer := Peer.AnyIpv4, tcpPort := 22,
              description :=
                "SSH access from anywhere (restrict to specific IPs in production)",
              remoteRule := false }),
           ("EC2SG",
            { peer := Peer.SecurityGroupId (Str.attr "BastionSG" "SecurityGroupId"),
              tcpPort := 22, description := "SSH from bastion host", remoteRule := false })],
        egressRules :=
          [("LambdaSG",
            { peer := Peer.AnyIpv4, tcpPort := 443,
              description := "HTTPS outbound for AWS API calls", remoteRule := false })],
        resourcePolicies :=
          [("ProdLoggingBucket",
            { Effect := "ALLOW", Principals := [Principal.service "cloudtrail.amazonaws.com"],
              Actions := ["s3:PutObject"],
              Resources := [Str.attrCat "ProdLoggingBucket" "BucketArn" "/*"],
              Conditions := [("StringEquals", "s3:x-amz-acl", "bucket-owner-full-control")] }),
           ("ProdLoggingBucket",
            { Effect := "ALLOW", Principals := [Principal.service "cloudtrail.amazonaws.com"],
              Actions := ["s3:GetBucketAcl"],
              Resources := [Str.attr "ProdLoggingBucket" "BucketArn"], Conditions := [] }),
           ("ProdLoggingBucket",
            { Effect := "ALLOW", Principals := [Principal.service "cloudtrail.amazonaws.com"],
              Actions := ["s3:GetBucketLocation", "s3:GetBucketVersioning"],
              Resources := [Str.attr "ProdLoggingBucket" "BucketArn"], Conditions := [] })],
        grants :=
          [("ProdS3Bucket",
            { principal := Principal.grantPrincipalOf "ProdCloudFrontOAI",
              objectsKeyPattern := "*" })],
        rotationSchedules := [] },
    EnvironmentSuffix := s, Vpc := some "ProdVPC",
    PrivateSubnets := some (SubnetList.privateOf "ProdVPC"),
    PublicSubnets := some (SubnetList.publicOf "ProdVPC"),
    BastionHost := some "ProdBastionHost", KmsKey := some "ProdKMSKey",
    SecurityGroups :=
      ((GoMap.empty.set "lambda" "LambdaSG").set "ec2" "EC2SG").set "bastion" "BastionSG",
    S3Bucket := some "ProdS3Bucket", LoggingBucket := some "ProdLoggingBucket",
    CloudFrontOAI := some "ProdCloudFrontOAI", CloudFrontDist := some "ProdCloudFrontDist",
    LambdaFunction := some "ProdLambdaFunction",
    AutoScalingGroup := some "ProdAutoScalingGroup", CloudTrail := some "ProdCloudTrail",
    SNSAlerts := some "ProdSecurityAlerts", WAF := some "ProdWAF",
    SSMParameters := ssmBindings s range GoMap.empty, SecretsManager := some "ProdAppSecrets" }

/-! ## String facts -/

theorem str_append_left_cancel (p a b : String) : p ++ a = p ++ b ↔ a = b := by
  constructor
  · intro h
    have := congrArg String.data h
    simp only [String.data_append] at this
    exact String.ext (List.append_cancel_left this)
  · rintro rfl; rfl

theorem str_append_right_cancel (a b q : String) : a ++ q = b ++ q ↔ a = b := by
  constructor
  · intro h
    have := congrArg String.data h
    simp only [String.data_append] at this
    exact String.ext (List.append_cancel_right this)
  · rintro rfl; rfl

theorem str_ne_of_prefix_ne (p q x y : String) (n : Nat)
    (hp : n ≤ p.data.length) (hq : n ≤ q.data.length)
    (h : p.data.take n ≠ q.data.take n) : p ++ x ≠ q ++ y := by
  intro e
  apply h
  have := congrArg (fun t => t.data.take n) e
  simp only [String.data_append] at this
  rwa [List.take_append_of_le_length hp, List.take_append_of_le_length hq] at this

theorem lambda_log_group_ne_trail_log_group (s : String) :
    "/aws/lambda/prod-" ++ s ++ "-background-job" ≠ "/aws/cloudtrail/prod-" ++ s := by
  rw [String.append_assoc]
  exact str_ne_of_prefix_ne _ _ _ _ 6 (by decide) (by decide) (by decide)

/-! ## Evaluation lemmas -/

theorem foldl_ssmLoopBody (l : List (String × String)) (t : TapStack) :
    l.foldl ssmLoopBody t =
      { t with
        Stack := { t.Stack with
          constructs := t.Stack.constructs ++ l.map (ssmConstruct t.EnvironmentSuffix) }
        SSMParameters :=
          l.foldl (fun m kv => m.set kv.1 ("SSMParam" ++ kv.1)) t.SSMParameters } := by
  induction l generalizing t with
  | nil => simp
  | cons kv l ih =>
    rw [List.foldl_cons, ih]
    simp [ssmLoopBody, TapStack.new, Stack.addChild, ssmConstruct]

theorem createSSMParameters_eq (range : MapRange) (t : TapStack) :
    createSSMParameters range t = .ok
      { t with
        Stack := { t.Stack with
          constructs := t.Stack.constructs ++ ssmBlock t.EnvironmentSuffix range }
        SSMParameters := ssmBindings t.EnvironmentSuffix range t.SSMParameters } := by
  simp [createSSMParameters, foldl_ssmLoopBody, ssmBlock, ssmBindings]

theorem ssmBlock_perm (s : String) (range : MapRange) :
    (ssmBlock s range).Perm ((parameters s).map (ssmConstruct s)) :=
  (range (parameters s)).property.map _

theorem mem_ssmBlock (s : String) (range : MapRange) (c : Construct) :
    c ∈ ssmBlock s range ↔ c ∈ (parameters s).map (ssmConstruct s) :=
  (ssmBlock_perm s range).mem_iff

theorem ok_bind {α β : Type} (a : α) (f : α → Except Panic β) :
    (Except.ok a >>= f) = f a := rfl

theorem error_bind {α β : Type} (e : Panic) (f : α → Except Panic β) :
    ((Except.error e : Except Panic α) >>= f) = Except.error e := rfl

theorem ok_bind' {α β : Type} (a : α) (f : α → Except Panic β) :
    (Except.ok a : Except Panic α).bind f = f a := rfl

theorem error_bind' {α β : Type} (e : Panic) (f : α → Except Panic β) :
    (Except.error e : Except Panic α).bind f = Except.error e := rfl

theorem stackPropsOf_explicit (sp : StackProps) (s : Option String) :
    stackPropsOf (some ⟨some sp, s⟩) = .ok sp := rfl

theorem resolveEnvironmentSuffix_explicit (sp : Option StackProps) (s : String) (st : Stack) :
    resolveEnvironmentSuffix (some ⟨sp, some s⟩) st = .ok s := rfl

/-- NewTapStack on props that carry both the stack props and the suffix. -/
theorem NewTapStack_explicit (scope : App) (id : String) (sp : StackProps) (s : String)
    (range : MapRange) :
    NewTapStack scope id (some ⟨some sp, some s⟩) range =
      createComponents range {
        Stack := (((NewStack scope id sp).addStackTag "Environment" s).addStackTag "Project"
          ("prod-" ++ s)).addStackTag "ManagedBy" "CDK"
        EnvironmentSuffix := s
        SecurityGroups := GoMap.empty
        SSMParameters := GoMap.empty } := by
  rw [NewTapStack, stackPropsOf_explicit, ok_bind]
  dsimp only
  rw [resolveEnvironmentSuffix_explicit, ok_bind]

/-- The rest of NewTapStack depends on `props` only through the stack props and
the resolved suffix. -/
theorem NewTapStack_eq_explicit (scope : App) (id : String) (props : Option TapStackProps)
    (range : MapRange) :
    NewTapStack scope id props range =
      (stackPropsOf props).bind (fun sp =>
        (resolveEnvironmentSuffix props (NewStack scope id sp)).bind (fun s =>
          NewTapStack scope id (some ⟨some sp, some s⟩) range)) := by
  rw [NewTapStack]
  cases hsp : stackPropsOf props with
  | error e => rw [error_bind, error_bind']
  | ok sp =>
    rw [ok_bind, ok_bind']
    dsimp only
    cases hs : resolveEnvironmentSuffix props (NewStack scope id sp) with
    | error e => rw [error_bind, error_bind']
    | ok s => rw [ok_bind, ok_bind', NewTapStack_explicit]

attribute [simp] createKMSKey createNetworking createSecurityGroups createS3Resources
  createSecretsManager createSSMParameters_eq createSNSAlerts createLambdaFunction
  createEC2Resources createBastionHost createCloudFront createWAF createMonitoring
  createOutputs createComponents TapStack.new TapStack.tag TapStack.addEgressRule
  TapStack.addIngressRule TapStack.addToResourcePolicy TapStack.grantRead Stack.addChild
  Stack.addTag Stack.addStackTag Stack.TryGetContext Stack.Account NewStack deref
  stackPropsOf resolveEnvironmentSuffix GoMap.empty GoMap.set

/-- NewTapStack on props that carry both the stack props and the suffix returns the
composed stack. -/
theorem NewTapStack_composed (scope : App) (id : String) (sp : StackProps) (s : String)
    (range : MapRange) :
    NewTapStack scope id (some ⟨some sp, some s⟩) range =
      .ok (composedStack scope id sp s range) := by
  simp [NewTapStack_explicit, bind, Except.bind, pure, Except.pure, composedStack]

theorem ssmBlock_filter_length (s : String) (range : MapRange) (k : Kind) :
    ((ssmBlock s range).filter (Construct.hasKind k)).length =
      if k = .StringParameter then 4 else 0 := by
  rw [((ssmBlock_perm s range).filter _).length_eq]
  cases k <;> simp [parameters, ssmConstruct, Construct.hasKind, Construct.kind, Resource.kind]

theorem mem_ssmBlock_cases (s : String) (range : MapRange) (c : Construct)
    (h : c ∈ ssmBlock s range) :
    c = ssmConstruct s ("app-environment", s) ∨ c = ssmConstruct s ("app-version", "1.0.0") ∨
    c = ssmConstruct s ("log-level", "INFO") ∨ c = ssmConstruct s ("max-connections", "100") := by
  rw [mem_ssmBlock] at h
  simpa [parameters] using h

theorem forall_mem_ssmBlock (s : String) (range : MapRange) (P : Construct → Prop) :
    (∀ c ∈ ssmBlock s range, P c) ↔
      P (ssmConstruct s ("app-environment", s)) ∧ P (ssmConstruct s ("app-version", "1.0.0")) ∧
      P (ssmConstruct s ("log-level", "INFO")) ∧
      P (ssmConstruct s ("max-connections", "100")) := by
  simp [mem_ssmBlock, parameters]

theorem ssmBlock_pairwise (s : String) (range : MapRange) (R : Construct → Construct → Prop)
    (hR : ∀ a b, R a b → R b a) :
    (ssmBlock s range).Pairwise R ↔ ((parameters s).map (ssmConstruct s)).Pairwise R :=
  (ssmBlock_perm s range).pairwise_iff (fun {a b} h => hR a b h)

theorem ssmBlock_filter_ne (s : String) (range : MapRange) (k : Kind)
    (hk : k ≠ .StringParameter) : (ssmBlock s range).filter (Construct.hasKind k) = [] := by
  rw [List.filter_eq_nil_iff]
  intro c hc
  rcases mem_ssmBlock_cases s range c hc with h | h | h | h <;>
    simpa [h, ssmConstruct, Construct.hasKind, Construct.kind, Resource.kind] using hk.symm

theorem ssmBlock_filter_self (s : String) (range : MapRange) :
    (ssmBlock s range).filter (Construct.hasKind .StringParameter) = ssmBlock s range := by
  rw [List.filter_eq_self]
  intro c hc
  rcases mem_ssmBlock_cases s range c hc with h | h | h | h <;>
    simp [h, ssmConstruct, Construct.hasKind, Construct.kind, Resource.kind]

theorem ssmBlock_not_bucket (s : String) (range : MapRange) :
    (ssmBlock s range).filterMap Construct.asBucket = [] := by
  rw [List.filterMap_eq_nil_iff]
  intro c hc
  rcases mem_ssmBlock_cases s range c hc with h | h | h | h <;>
    simp [h, ssmConstruct, Construct.asBucket]

/-! ## Environment suffix and environment (claims C1 to C3) -/

/-- A suffix given in the props is used verbatim, the empty string included. -/
theorem NewTapStack_suffix_of_props (scope : App) (id : String) (sp : StackProps)
    (s : String) (range : MapRange) :
    ∃ t, NewTapStack scope id (some ⟨some sp, some s⟩) range = .ok t ∧
      t.EnvironmentSuffix = s := by
  simp [NewTapStack_composed, composedStack]

/-- Without a suffix in the props and without a context value the suffix is "dev". -/
theorem NewTapStack_suffix_default (scope : App) (id : String) (sp : StackProps)
    (range : MapRange) (h : scope.context "environmentSuffix" = none) :
    ∃ t, NewTapStack scope id (some ⟨some sp, none⟩) range = .ok t ∧
      t.EnvironmentSuffix = "dev" := by
  rw [NewTapStack_eq_explicit]
  simp [Except.bind, h, NewTapStack_composed, composedStack]

/-- A context value of dynamic type `*string` is dereferenced and used. -/
theorem NewTapStack_suffix_of_context_pointer (scope : App) (id : String) (sp : StackProps)
    (s : String) (range : MapRange)
    (h : scope.context "environmentSuffix" = some (.strPtr (some s))) :
    ∃ t, NewTapStack scope id (some ⟨some sp, none⟩) range = .ok t ∧
      t.EnvironmentSuffix = s := by
  rw [NewTapStack_eq_explicit]
  simp [Except.bind, h, NewTapStack_composed, composedStack]

/-- C1, evaluated at the failing input: with no suffix in the props and the context
value "environmentSuffix" set to a Go string (the dynamic type main itself expects),
NewTapStack does not take the context value as the suffix: the unchecked assertion
`suffix.(*string)` panics and no stack is returned. -/
theorem NewTapStack_context_string_panics (id s : String) (range : MapRange) :
    NewTapStack
      { context := fun k => if k = "environmentSuffix" then some (.str s) else none }
      id (some ⟨some {}, none⟩) range = .error .typeAssertion := by
  rw [NewTapStack_eq_explicit]
  simp [Except.bind]

/-- C2: in main the suffix is the context value "environmentSuffix" when that is a
string and "dev" when it is absent or not a string; the stack id handed to
NewTapStack is "TapStack" followed by the suffix and the props carry the same suffix. -/
theorem main_suffix_and_stack_id (context : String → Option CtxValue) (environ : Environ)
    (range : MapRange) :
    (∀ s, context "environmentSuffix" = some (.str s) →
      (main context environ range).stackName = "TapStack" ++ s ∧
      (main context environ range).props.EnvironmentSuffix = some s) ∧
    (context "environmentSuffix" = none →
      (main context environ range).stackName = "TapStack" ++ "dev" ∧
      (main context environ range).props.EnvironmentSuffix = some "dev") ∧
    (∀ v, context "environmentSuffix" = some v → (∀ s, v ≠ .str s) →
      (main context environ range).stackName = "TapStack" ++ "dev" ∧
      (main context environ range).props.EnvironmentSuffix = some "dev") ∧
    (main context environ range).stack =
      NewTapStack (main context environ range).app (main context environ range).stackName
        (some (main context environ range).props) range := by
  refine ⟨?_, ?_, ?_, rfl⟩
  · intro s h
    simp [main, mainEnvironmentSuffix, h]
  · intro h
    simp [main, mainEnvironmentSuffix, h]
  · intro v h hv
    cases v with
    | str s => exact absurd rfl (hv s)
    | strPtr p => simp [main, mainEnvironmentSuffix, h]
    | other x => simp [main, mainEnvironmentSuffix, h]

/-- C2 at a concrete context: the string "qa" gives stack id "TapStackqa". -/
theorem main_suffix_and_stack_id_witness :
    (main (fun k => if k = "environmentSuffix" then some (.str "qa") else none)
        (fun _ => none) rangeInOrder).stackName = "TapStack" ++ "qa" ∧
    (main (fun k => if k = "environmentSuffix" then some (.str "qa") else none)
        (fun _ => none) rangeInOrder).props.EnvironmentSuffix = some "qa" :=
  (main_suffix_and_stack_id (fun k => if k = "environmentSuffix" then some (.str "qa") else none)
    (fun _ => none) rangeInOrder).1 "qa" rfl

/-- C3: main sets the stack environment exactly when CDK_DEFAULT_ACCOUNT and
CDK_DEFAULT_REGION are both set to non-empty values, and then it carries those two
values; otherwise the environment is nil; in every case the stack is built without
a panic and has that environment. -/
theorem main_env_both_or_neither (context : String → Option CtxValue) (environ : Environ)
    (range : MapRange) :
    (main context environ range).props.StackProps =
      some { Env :=
        if (environ "CDK_DEFAULT_ACCOUNT").getD "" ≠ "" ∧
            (environ "CDK_DEFAULT_REGION").getD "" ≠ "" then
          some { Account := environ "CDK_DEFAULT_ACCOUNT",
                 Region := environ "CDK_DEFAULT_REGION" }
        else none } ∧
    ∃ t, (main context environ range).stack = .ok t ∧
      some { Env := t.Stack.env } = (main context environ range).props.StackProps := by
  constructor
  · cases ha : environ "CDK_DEFAULT_ACCOUNT" <;> cases hr : environ "CDK_DEFAULT_REGION" <;>
      simp [main, getEnv, os.Getenv, ha, hr]
    split_ifs with h <;> simp_all
  · simp [main, NewTapStack_composed, composedStack]

/-! ## Resource counts and bucket encryption (claims C9 and C10) -/

/-- C9: for every suffix (and every stack environment and map iteration order) the
stack declares exactly 1 VPC, 1 flow log, 3 buckets, 1 KMS key, 1 KMS alias,
3 security groups, 1 secret, 4 SSM parameters, 1 SNS topic, 1 launch template,
1 Auto Scaling group, 1 bastion host, 1 CloudFront distribution, 1 web ACL,
1 trail, 2 log groups and 1 alarm. -/
theorem NewTapStack_resource_counts (scope : App) (id : String) (sp : StackProps)
    (s : String) (range : MapRange) :
    ∃ t, NewTapStack scope id (some ⟨some sp, some s⟩) range = .ok t ∧
      t.Stack.count .Vpc = 1 ∧ t.Stack.count .FlowLog = 1 ∧ t.Stack.count .Bucket = 3 ∧
      t.Stack.count .Key = 1 ∧ t.Stack.count .Alias = 1 ∧
      t.Stack.count .SecurityGroup = 3 ∧ t.Stack.count .Secret = 1 ∧
      t.Stack.count .StringParameter = 4 ∧ t.Stack.count .Topic = 1 ∧
      t.Stack.count .LaunchTemplate = 1 ∧ t.Stack.count .AutoScalingGroup = 1 ∧
      t.Stack.count .BastionHostLinux = 1 ∧ t.Stack.count .Distribution = 1 ∧
      t.Stack.count .CfnWebACL = 1 ∧ t.Stack.count .Trail = 1 ∧
      t.Stack.count .LogGroup = 2 ∧ t.Stack.count .Alarm = 1 := by
  simp [NewTapStack_composed, composedStack]
  simp [Stack.count, Stack.ofKind, List.filter_cons, List.filter_append,
    ssmBlock_filter_length, Construct.hasKind, Construct.kind, Resource.kind]

/-- C10: the stack declares exactly the flow-logs, application and logging buckets;
each of them is versioned and KMS-encrypted with the stack's single customer-managed
key `t.KmsKey`, whatever the suffix, environment and iteration order. -/
theorem NewTapStack_buckets_versioned_and_encrypted (scope : App) (id : String)
    (sp : StackProps) (s : String) (range : MapRange) :
    ∃ t, NewTapStack scope id (some ⟨some sp, some s⟩) range = .ok t ∧
      t.KmsKey = some "ProdKMSKey" ∧
      (t.Stack.ofKind .Key).map Construct.id = ["ProdKMSKey"] ∧
      t.S3Bucket = some "ProdS3Bucket" ∧ t.LoggingBucket = some "ProdLoggingBucket" ∧
      t.Stack.buckets.map Prod.fst =
        ["VPCFlowLogsBucket", "ProdS3Bucket", "ProdLoggingBucket"] ∧
      ∀ b ∈ t.Stack.buckets,
        b.2.Versioned = true ∧ b.2.Encryption = .KMS ∧ b.2.EncryptionKey = t.KmsKey := by
  simp [NewTapStack_composed, composedStack]
  simp [Stack.buckets, Stack.ofKind, List.filterMap_cons, List.filterMap_append,
    ssmBlock_not_bucket, List.filter_cons, List.filter_append, ssmBlock_filter_ne,
    Construct.asBucket, Construct.hasKind, Construct.kind, Resource.kind]
  rintro a b (⟨-, rfl⟩ | ⟨-, rfl⟩ | ⟨-, rfl⟩) <;> simp

/-! ## Physical names (claim C5) -/

theorem pairwise_not_nameClash_of_nodup (l : List Construct)
    (h : (l.filterMap Construct.nameKey).Nodup) : l.Pairwise (fun a b => ¬ a.nameClash b) := by
  induction l with
  | nil => exact List.Pairwise.nil
  | cons a l ih =>
    rw [List.filterMap_cons] at h
    refine List.Pairwise.cons ?_ (ih ?_)
    · rintro b hb ⟨hk, n, ha, hn⟩
      have hka : a.nameKey = some (a.kind, n) := by simp [Construct.nameKey, ha]
      have hkb : b.nameKey = some (a.kind, n) := by simp [Construct.nameKey, hn, hk]
      rw [hka] at h
      exact (List.nodup_cons.mp h).1 (List.mem_filterMap.mpr ⟨b, hb, hkb⟩)
    · cases hka : a.nameKey with
      | none => simpa [hka] using h
      | some k =>
        rw [hka] at h
        exact (List.nodup_cons.mp h).2

theorem ssmBlock_keys_perm (s : String) (range : MapRange) :
    ((ssmBlock s range).filterMap Construct.nameKey).Perm (ssmKeys s) :=
  (ssmBlock_perm s range).filterMap _

theorem ssmBlock_keys_nodup (s : String) (range : MapRange) :
    ((ssmBlock s range).filterMap Construct.nameKey).Nodup := by
  rw [(ssmBlock_keys_perm s range).nodup_iff]
  simp [ssmKeys, str_append_left_cancel]

theorem mem_ssmBlock_keys (s : String) (range : MapRange) (k : Kind × String) :
    k ∈ (ssmBlock s range).filterMap Construct.nameKey ↔ k ∈ ssmKeys s :=
  (ssmBlock_keys_perm s range).mem_iff

/-- C5: for every suffix `s` and account `a`, resources of the same type declared by
NewTapStack have pairwise distinct physical names. The bucket names are
prod-s-vpc-flow-logs-a, prod-s-app-bucket-a and prod-s-logging-bucket-a, the role names
prod-s-lambda-role and prod-s-ec2-role, the log group names
/aws/lambda/prod-s-background-job and /aws/cloudtrail/prod-s, and the SSM parameter
names /prod-s/key for the four keys of the parameter map. -/
theorem NewTapStack_physical_names_distinct (scope : App) (id : String) (sp : StackProps)
    (s : String) (range : MapRange) :
    ∃ t, NewTapStack scope id (some ⟨some sp, some s⟩) range = .ok t ∧
      t.Stack.namesOf .Bucket =
        [some ("prod-" ++ s ++ "-vpc-flow-logs-" ++ accountOf sp.Env),
         some ("prod-" ++ s ++ "-app-bucket-" ++ accountOf sp.Env),
         some ("prod-" ++ s ++ "-logging-bucket-" ++ accountOf sp.Env)] ∧
      t.Stack.namesOf .Role =
        [some ("prod-" ++ s ++ "-lambda-role"), some ("prod-" ++ s ++ "-ec2-role")] ∧
      t.Stack.namesOf .LogGroup =
        [some ("/aws/lambda/prod-" ++ s ++ "-background-job"),
         some ("/aws/cloudtrail/prod-" ++ s)] ∧
      (t.Stack.namesOf .StringParameter).Perm
        [some ("/prod-" ++ s ++ "/" ++ "app-environment"),
         some ("/prod-" ++ s ++ "/" ++ "app-version"),
         some ("/prod-" ++ s ++ "/" ++ "log-level"),
         some ("/prod-" ++ s ++ "/" ++ "max-connections")] ∧
      t.Stack.namesDistinct := by
  simp [NewTapStack_composed, composedStack]
  refine ⟨?_, ?_, ?_, ?_, ?_⟩
  · simp [Stack.namesOf, Stack.ofKind, List.filter_cons, List.filter_append,
      ssmBlock_filter_ne, Construct.hasKind, Construct.kind, Resource.kind,
      Construct.physicalName, Resource.physicalName]
  · simp [Stack.namesOf, Stack.ofKind, List.filter_cons, List.filter_append,
      ssmBlock_filter_ne, Construct.hasKind, Construct.kind, Resource.kind,
      Construct.physicalName, Resource.physicalName]
  · simp [Stack.namesOf, Stack.ofKind, List.filter_cons, List.filter_append,
      ssmBlock_filter_ne, Construct.hasKind, Construct.kind, Resource.kind,
      Construct.physicalName, Resource.physicalName]
  · simp only [Stack.namesOf, Stack.ofKind, List.filter_cons, List.filter_append,
      ssmBlock_filter_self]
    simp only [Construct.hasKind, Construct.kind, Resource.kind, reduceCtorEq, decide_False,
      Bool.false_eq_true, if_false, List.filter_nil, List.append_nil]
    exact (ssmBlock_perm s range).map Construct.physicalName
  · apply pairwise_not_nameClash_of_nodup
    simp only [List.filterMap_cons, List.filterMap_append, List.filterMap_nil,
      Construct.nameKey, Construct.kind, Resource.kind, Construct.physicalName,
      Resource.physicalName, Option.map, List.nodup_cons, List.nodup_append, List.mem_cons,
      List.mem_append, ssmBlock_keys_nodup, mem_ssmBlock_keys, ssmKeys, List.Disjoint]
    simp [str_append_left_cancel, str_append_right_cancel,
      lambda_log_group_ne_trail_log_group]

/-! ## Construction order and reference graph (claims C6 and C7) -/

theorem ssmBlock_refs (s : String) (range : MapRange) :
    ∀ c ∈ ssmBlock s range, c.resource.refs = [] := by
  intro c hc
  rcases mem_ssmBlock_cases s range c hc with h | h | h | h <;>
    simp [h, ssmConstruct, Resource.refs]

theorem transGen_rank_lt {α : Type} (r : α → α → Prop) (f : α → Nat)
    (h : ∀ a b, r a b → f b < f a) : ∀ a b, Relation.TransGen r a b → f b < f a := by
  intro a b hab
  induction hab with
  | single h1 => exact h _ _ h1
  | tail _ h2 ih => exact lt_trans (h _ _ h2) ih

theorem acyclic_of_backwardOrSelf (s : Stack) (order : List Handle)
    (h : s.edges.all (backwardOrSelf order) = true) : s.AcyclicApartFromSelfReferences := by
  intro n hn
  have := transGen_rank_lt (fun a b => (a, b) ∈ s.edges ∧ a ≠ b) (fun x => order.indexOf x)
    (by
      rintro a b ⟨hab, hne⟩
      have := List.all_eq_true.mp h (a, b) hab
      simpa [backwardOrSelf, hne] using this) n n hn
  exact lt_irrefl _ this

theorem ssmBlock_creationEdges (s : String) (range : MapRange) :
    (ssmBlock s range).flatMap Construct.creationEdges = [] := by
  rw [List.flatMap_eq_nil_iff]
  intro c hc
  simp [Construct.creationEdges, ssmBlock_refs s range c hc]

/-- C7 (amended): the reference graph over the resources declared by NewTapStack has
no cycle through two or more distinct resources, and its only self-reference is that of
the logging bucket, whose resource-policy statements use the bucket's own ARN. -/
theorem NewTapStack_no_cycle_apart_from_self_reference (scope : App) (id : String)
    (sp : StackProps) (s : String) (range : MapRange) :
    ∃ t, NewTapStack scope id (some ⟨some sp, some s⟩) range = .ok t ∧
      t.Stack.AcyclicApartFromSelfReferences ∧
      ∀ a, (a, a) ∈ t.Stack.edges ↔ a = "ProdLoggingBucket" := by
  simp [NewTapStack_composed, composedStack]
  constructor
  · apply acyclic_of_backwardOrSelf _ referenceOrder
    simp [Stack.edges, Stack.attachedEdges, List.flatMap_cons, List.flatMap_append,
      ssmBlock_creationEdges, Construct.creationEdges, Resource.refs, handles,
      PolicyStatement.refs, Principal.refs, Str.refs, SubnetSelection.refs, SubnetList.vpc,
      Peer.refs, backwardOrSelf, referenceOrder, List.indexOf_cons]
  · intro a
    simp [Stack.edges, Stack.attachedEdges, List.flatMap_cons, List.flatMap_append,
      ssmBlock_creationEdges, Construct.creationEdges, Resource.refs, handles,
      PolicyStatement.refs, Principal.refs, Str.refs, SubnetSelection.refs, SubnetList.vpc,
      Peer.refs]
    constructor
    · intro h
      casesm* _ ∨ _
      all_goals first | assumption | (rename_i h; exact absurd (h.1.symm.trans h.2) (by decide))
    · intro h
      simp [h]

/-- C7 (counterexample): for suffix "dev" the reference graph has a cycle of length
one, the logging bucket referencing itself. -/
theorem NewTapStack_logging_bucket_self_reference :
    ∃ t, NewTapStack { context := fun _ => none } "TapStackdev"
        (some ⟨some {}, some "dev"⟩) rangeInOrder = .ok t ∧ ¬ t.Stack.Acyclic := by
  simp [NewTapStack_composed, composedStack]
  intro h
  refine h "ProdLoggingBucket" (Relation.TransGen.single ?_)
  simp [Stack.edges, Stack.attachedEdges, PolicyStatement.refs, Principal.refs, Str.refs]

/-! ## Determinism of the output document (claim C4) -/

theorem ssmBlock_filter_notKind (s : String) (range : MapRange) (k : Kind)
    (hk : k ≠ .StringParameter) :
    (ssmBlock s range).filter (Construct.notKind k) = ssmBlock s range := by
  rw [List.filter_eq_self]
  intro c hc
  rcases mem_ssmBlock_cases s range c hc with h | h | h | h <;>
    simpa [h, ssmConstruct, Construct.notKind, Construct.hasKind, Construct.kind,
      Resource.kind] using hk.symm

theorem ssmBlock_filter_notKind_self (s : String) (range : MapRange) :
    (ssmBlock s range).filter (Construct.notKind .StringParameter) = [] := by
  rw [List.filter_eq_nil_iff]
  intro c hc
  rcases mem_ssmBlock_cases s range c hc with h | h | h | h <;>
    simp [h, ssmConstruct, Construct.notKind, Construct.hasKind, Construct.kind, Resource.kind]

theorem ssmBlock_map_kind (s : String) (range : MapRange) :
    (ssmBlock s range).map Construct.kind =
      [.StringParameter, .StringParameter, .StringParameter, .StringParameter] := by
  have h : ((ssmBlock s range).map Construct.kind).Perm (List.replicate 4 .StringParameter) := by
    have := (ssmBlock_perm s range).map Construct.kind
    simpa [parameters, ssmConstruct, Construct.kind, Resource.kind] using this
  simpa using List.perm_replicate.mp h

/-- C4 (amended): two builds with the same suffix and account, whatever the orders in
which the SSM loop visits its map, yield documents with the same outputs, tags, rules,
policy statements and grants, the same resources other than SSM parameters in the same
order, the same four SSM parameters, and a resource of the same kind at every
position; the documents are identical when the map is visited in the same order. Only
the relative order of the four SSM parameters follows the iteration order. -/
theorem NewTapStack_document_up_to_ssm_order (scope : App) (id : String) (sp : StackProps)
    (s : String) (r1 r2 : MapRange) :
    ∃ t1 t2, NewTapStack scope id (some ⟨some sp, some s⟩) r1 = .ok t1 ∧
      NewTapStack scope id (some ⟨some sp, some s⟩) r2 = .ok t2 ∧
      t1.Stack.document.outputs = t2.Stack.document.outputs ∧
      t1.Stack.document.tags = t2.Stack.document.tags ∧
      t1.Stack.document.ingressRules = t2.Stack.document.ingressRules ∧
      t1.Stack.document.egressRules = t2.Stack.document.egressRules ∧
      t1.Stack.document.resourcePolicies = t2.Stack.document.resourcePolicies ∧
      t1.Stack.document.grants = t2.Stack.document.grants ∧
      t1.Stack.document.resources.filter (Construct.notKind .StringParameter) =
        t2.Stack.document.resources.filter (Construct.notKind .StringParameter) ∧
      (t1.Stack.document.resources.filter (Construct.hasKind .StringParameter)).Perm
        (t2.Stack.document.resources.filter (Construct.hasKind .StringParameter)) ∧
      t1.Stack.document.resources.map Construct.kind =
        t2.Stack.document.resources.map Construct.kind ∧
      ((r1 (parameters s)).val = (r2 (parameters s)).val →
        t1.Stack.document = t2.Stack.document) := by
  simp [NewTapStack_composed, composedStack]
  simp [Stack.document, Stack.ofKind, List.filter_cons, List.filter_append,
    ssmBlock_filter_ne, ssmBlock_filter_notKind, ssmBlock_filter_notKind_self,
    ssmBlock_filter_self, ssmBlock_map_kind, Construct.notKind, Construct.hasKind,
    Construct.kind, Resource.kind]
  refine ⟨(ssmBlock_perm s r1).trans (ssmBlock_perm s r2).symm, fun h => ?_⟩
  simp [ssmBlock, h]

/-- C4 (counterexample): with suffix "dev" and the same props, visiting the SSM map in
the listed order and in the reverse order gives two different documents. -/
theorem NewTapStack_document_depends_on_map_order :
    ∃ t1 t2,
      NewTapStack { context := fun _ => none } "TapStackdev"
        (some ⟨some {}, some "dev"⟩) rangeInOrder = .ok t1 ∧
      NewTapStack { context := fun _ => none } "TapStackdev"
        (some ⟨some {}, some "dev"⟩) rangeReversed = .ok t2 ∧
      t1.Stack.document ≠ t2.Stack.document := by
  simp [NewTapStack_composed, composedStack]
  simp [Stack.document, ssmBlock, rangeInOrder, rangeReversed, parameters, ssmConstruct,
    List.filter_cons, Construct.notKind, Construct.hasKind, Construct.kind, Resource.kind]

/-! ## Tag precedence (claim C8) -/

theorem lastValue_tagsOn_eq_none (s : Stack) (target : Option Handle) (key : String)
    (h : ∀ a ∈ s.tags, a.target = target → a.key ≠ key) :
    lastValue (s.tagsOn target) key = none := by
  unfold lastValue
  rw [List.lookup_eq_none_iff]
  intro p hp
  simp only [List.mem_reverse, Stack.tagsOn, List.mem_map, List.mem_filter,
    decide_eq_true_eq] at hp
  rcases hp with ⟨a, ⟨ha, hat⟩, rfl⟩
  simp only [bne_iff_ne, ne_eq]
  exact fun e => h a ha hat e.symm

/-- C8: with the tag merge modelled from the spec (the more local value wins), every
resource of the stack built by main carries, for each key, the value set closest to
it: the key Name comes from the resource itself, Environment, Project and ManagedBy from
the stack, Repository and Author from the app; on the only key set at two levels,
Environment, the app and the stack set the same value. -/
theorem main_tag_precedence (context : String → Option CtxValue)
    (environ : Environ) (range : MapRange) :
    ∃ t, (main context environ range).stack = .ok t ∧
      (∀ c key v, lastValue (t.Stack.tagsOn (some c.id)) key = some v →
        resolvedTag (main context environ range).app t.Stack c key = some v) ∧
      (∀ c key v, lastValue (t.Stack.tagsOn (some c.id)) key = none →
        lastValue (t.Stack.tagsOn none) key = some v →
        resolvedTag (main context environ range).app t.Stack c key = some v) ∧
      (main context environ range).app.tags =
        [("Environment", mainEnvironmentSuffix ⟨context, []⟩),
         ("Repository", getEnv environ "REPOSITORY" "unknown"),
         ("Author", getEnv environ "COMMIT_AUTHOR" "unknown")] ∧
      t.Stack.tagsOn none =
        [("Environment", mainEnvironmentSuffix ⟨context, []⟩),
         ("Project", "prod-" ++ mainEnvironmentSuffix ⟨context, []⟩),
         ("ManagedBy", "CDK")] ∧
      (∀ a ∈ t.Stack.tags, a.target ≠ none → a.key = "Name") ∧
      ∀ c : Construct,
        resolvedTag (main context environ range).app t.Stack c "Environment" =
          some (mainEnvironmentSuffix ⟨context, []⟩) ∧
        resolvedTag (main context environ range).app t.Stack c "Project" =
          some ("prod-" ++ mainEnvironmentSuffix ⟨context, []⟩) ∧
        resolvedTag (main context environ range).app t.Stack c "ManagedBy" = some "CDK" ∧
        resolvedTag (main context environ range).app t.Stack c "Repository" =
          some (getEnv environ "REPOSITORY" "unknown") ∧
        resolvedTag (main context environ range).app t.Stack c "Author" =
          some (getEnv environ "COMMIT_AUTHOR" "unknown") ∧
        resolvedTag (main context environ range).app t.Stack c "Name" =
          lastValue (t.Stack.tagsOn (some c.id)) "Name" := by
  have key : ∃ t, (main context environ range).stack = .ok t ∧
      t.Stack.tagsOn none =
        [("Environment", mainEnvironmentSuffix ⟨context, []⟩),
         ("Project", "prod-" ++ mainEnvironmentSuffix ⟨context, []⟩),
         ("ManagedBy", "CDK")] ∧
      (∀ a ∈ t.Stack.tags, a.target ≠ none → a.key = "Name") := by
    simp only [main, App.addTag, List.nil_append, List.cons_append]
    simp [NewTapStack_composed, composedStack]
    simp [Stack.tagsOn, List.filter_cons]
  obtain ⟨t, ht, hstack, hname⟩ := key
  have happ : (main context environ range).app.tags =
      [("Environment", mainEnvironmentSuffix ⟨context, []⟩),
       ("Repository", getEnv environ "REPOSITORY" "unknown"),
       ("Author", getEnv environ "COMMIT_AUTHOR" "unknown")] := rfl
  have hlocal : ∀ (c : Construct) (key : String), key ≠ "Name" →
      lastValue (t.Stack.tagsOn (some c.id)) key = none := by
    intro c key hk
    apply lastValue_tagsOn_eq_none
    intro a ha hat
    rw [hname a ha (by simp [hat])]
    exact fun e => hk e.symm
  refine ⟨t, ht, ?_, ?_, happ, hstack, hname, ?_⟩
  · intro c key v h
    simp [resolvedTag, h]
  · intro c key v h1 h2
    simp [resolvedTag, h1, h2]
  · intro c
    have e1 := hlocal c "Environment" (by decide)
    have e2 := hlocal c "Project" (by decide)
    have e3 := hlocal c "ManagedBy" (by decide)
    have e4 := hlocal c "Repository" (by decide)
    have e5 := hlocal c "Author" (by decide)
    simp only [resolvedTag, e1, e2, e3, e4, e5, hstack, happ]
    refine ⟨?_, ?_, ?_, ?_, ?_, ?_⟩
    · simp [lastValue, List.lookup]
    · simp [lastValue, List.lookup]
    · simp [lastValue, List.lookup]
    · simp [lastValue, List.lookup]
    · simp [lastValue, List.lookup]
    · cases h : lastValue (t.Stack.tagsOn (some c.id)) "Name" <;> simp [lastValue, List.lookup]

/-! ## Buckets, outputs and capacities (claims C11, C12 and C17) -/

theorem ssmBlock_select_nil {α : Type} (s : String) (range : MapRange)
    (sel : Resource → Option α) (h : ∀ p, sel (.StringParameter p) = none) :
    (ssmBlock s range).filterMap (Construct.select sel) = [] := by
  rw [List.filterMap_eq_nil_iff]
  intro c hc
  rcases mem_ssmBlock_cases s range c hc with e | e | e | e <;>
    simp [e, ssmConstruct, Construct.select, h]

/-- C11: the flow-logs bucket and the application bucket block all public access (all
four flags true); the logging bucket is the only bucket whose RestrictPublicBuckets is
false, its other three flags are true and its object ownership is
BUCKET_OWNER_PREFERRED. -/
theorem NewTapStack_bucket_public_access (scope : App) (id : String)
    (sp : StackProps) (s : String) (range : MapRange) :
    ∃ t, NewTapStack scope id (some ⟨some sp, some s⟩) range = .ok t ∧
      t.S3Bucket = some "ProdS3Bucket" ∧ t.LoggingBucket = some "ProdLoggingBucket" ∧
      t.Stack.buckets.map (fun b => (b.1, b.2.BlockPublicAccess, b.2.ObjectOwnership)) =
        [("VPCFlowLogsBucket", ⟨true, true, true, true⟩, none),
         ("ProdS3Bucket", ⟨true, true, true, true⟩, none),
         ("ProdLoggingBucket", ⟨true, true, true, false⟩, some "BUCKET_OWNER_PREFERRED")] ∧
      ∀ b ∈ t.Stack.buckets,
        (b.2.BlockPublicAccess.RestrictPublicBuckets = false ↔ b.1 = "ProdLoggingBucket") := by
  simp [NewTapStack_composed, composedStack]
  simp [Stack.buckets, List.filterMap_cons, List.filterMap_append, ssmBlock_not_bucket,
    Construct.asBucket, BlockPublicAccess_BLOCK_ALL]
  rintro a b (⟨rfl, rfl⟩ | ⟨rfl, rfl⟩ | ⟨rfl, rfl⟩) <;> simp

/-- C12: the stack declares exactly six outputs, VPCId, S3BucketName,
CloudFrontDomainName, LambdaFunctionArn, BastionHostId and KMSKeyId, whose values are the
VPC id, the application bucket's name, the distribution's domain name, the function's
ARN, the bastion's instance id and the key id; their export names are prod-s- followed
by vpc-id, s3-bucket, cloudfront-domain, lambda-arn, bastion-id and kms-key-id, and are
pairwise distinct for every suffix `s`. -/
theorem NewTapStack_outputs (scope : App) (id : String)
    (sp : StackProps) (s : String) (range : MapRange) :
    ∃ t, NewTapStack scope id (some ⟨some sp, some s⟩) range = .ok t ∧
      t.Vpc = some "ProdVPC" ∧ t.S3Bucket = some "ProdS3Bucket" ∧
      t.CloudFrontDist = some "ProdCloudFrontDist" ∧
      t.LambdaFunction = some "ProdLambdaFunction" ∧
      t.BastionHost = some "ProdBastionHost" ∧ t.KmsKey = some "ProdKMSKey" ∧
      (t.Stack.select Resource.asCfnOutput).map (fun o => (o.1, o.2.Value, o.2.ExportName)) =
        [("VPCId", .attr "ProdVPC" "VpcId", "prod-" ++ s ++ "-vpc-id"),
         ("S3BucketName", .attr "ProdS3Bucket" "BucketName", "prod-" ++ s ++ "-s3-bucket"),
         ("CloudFrontDomainName", .attr "ProdCloudFrontDist" "DomainName",
            "prod-" ++ s ++ "-cloudfront-domain"),
         ("LambdaFunctionArn", .attr "ProdLambdaFunction" "FunctionArn",
            "prod-" ++ s ++ "-lambda-arn"),
         ("BastionHostId", .attr "ProdBastionHost" "InstanceId", "prod-" ++ s ++ "-bastion-id"),
         ("KMSKeyId", .attr "ProdKMSKey" "KeyId", "prod-" ++ s ++ "-kms-key-id")] ∧
      t.Stack.exportNames.Nodup := by
  simp [NewTapStack_composed, composedStack]
  simp [Stack.exportNames, Stack.select, List.filterMap_cons, List.filterMap_append,
    ssmBlock_select_nil, Construct.select, Resource.asCfnOutput, str_append_left_cancel]

/-- C17: the one Auto Scaling group is declared with MinCapacity 1, MaxCapacity 3 and
DesiredCapacity 2 for every suffix, so MinCapacity ≤ DesiredCapacity ≤ MaxCapacity. -/
theorem NewTapStack_auto_scaling_capacity (scope : App) (id : String)
    (sp : StackProps) (s : String) (range : MapRange) :
    ∃ t, NewTapStack scope id (some ⟨some sp, some s⟩) range = .ok t ∧
      (t.Stack.select Resource.asAutoScalingGroup).map
          (fun g => (g.1, g.2.MinCapacity, g.2.MaxCapacity, g.2.DesiredCapacity)) =
        [("ProdAutoScalingGroup", 1, 3, 2)] ∧
      ∀ g ∈ t.Stack.select Resource.asAutoScalingGroup,
        g.2.MinCapacity ≤ g.2.DesiredCapacity ∧ g.2.DesiredCapacity ≤ g.2.MaxCapacity := by
  simp [NewTapStack_composed, composedStack]
  simp [Stack.select, List.filterMap_cons, List.filterMap_append,
    ssmBlock_select_nil, Construct.select, Resource.asAutoScalingGroup]

/-! ## Subnets, security groups, roles and the web ACL (claims C16, C18, C19 and C20) -/

/-- C16: the Auto Scaling group and the Lambda function select exactly
`t.PrivateSubnets`, the private-subnet list of the stack's VPC; of the three compute
resources that select subnets, the bastion host is the only one that selects public
subnets. -/
theorem NewTapStack_compute_in_private_subnets (scope : App) (id : String)
    (sp : StackProps) (s : String) (range : MapRange) :
    ∃ t, NewTapStack scope id (some ⟨some sp, some s⟩) range = .ok t ∧
      t.Vpc = some "ProdVPC" ∧ t.PrivateSubnets = some (.privateOf "ProdVPC") ∧
      (t.Stack.select Resource.asAutoScalingGroup).map (fun g => (g.1, g.2.VpcSubnets)) =
        [("ProdAutoScalingGroup", { Subnets := t.PrivateSubnets })] ∧
      (t.Stack.select Resource.asFunction).map (fun f => (f.1, f.2.VpcSubnets)) =
        [("ProdLambdaFunction", { Subnets := t.PrivateSubnets })] ∧
      (t.Stack.select Resource.asBastionHostLinux).map (fun b => (b.1, b.2.SubnetSelection)) =
        [("ProdBastionHost", { SubnetType := some .PUBLIC })] ∧
      (t.Stack.select Resource.subnetSelection).map Prod.fst =
        ["ProdLambdaFunction", "ProdAutoScalingGroup", "ProdBastionHost"] ∧
      ∀ c ∈ t.Stack.select Resource.subnetSelection,
        (c.2.selectsPublic = true ↔ c.1 = "ProdBastionHost") := by
  simp [NewTapStack_composed, composedStack]
  simp [Stack.select, List.filterMap_cons, List.filterMap_append, ssmBlock_select_nil,
    Construct.select, Resource.asAutoScalingGroup, Resource.asFunction,
    Resource.asBastionHostLinux, Resource.subnetSelection]
  rintro a b (⟨rfl, rfl⟩ | ⟨rfl, rfl⟩ | ⟨rfl, rfl⟩) <;>
    simp [SubnetSelection.selectsPublic]

/-- C18: the SecurityGroups map has exactly the keys lambda, ec2 and bastion, bound to the
three security groups of the stack; the only ingress rule of the EC2 group is TCP 22
with the bastion group's id as peer; the only rule added to the Lambda group is egress
TCP 443; the only other added rule is the bastion group's ingress on TCP 22, so no
group has an added ingress rule on a port other than 22. -/
theorem NewTapStack_security_group_rules (scope : App) (id : String)
    (sp : StackProps) (s : String) (range : MapRange) :
    ∃ t, NewTapStack scope id (some ⟨some sp, some s⟩) range = .ok t ∧
      t.SecurityGroups "lambda" = some "LambdaSG" ∧ t.SecurityGroups "ec2" = some "EC2SG" ∧
      t.SecurityGroups "bastion" = some "BastionSG" ∧
      (∀ k, k ≠ "lambda" → k ≠ "ec2" → k ≠ "bastion" → t.SecurityGroups k = none) ∧
      (t.Stack.select Resource.asSecurityGroup).map Prod.fst =
        ["LambdaSG", "EC2SG", "BastionSG"] ∧
      t.Stack.ingressRules =
        [("BastionSG", ⟨.AnyIpv4, 22,
            "SSH access from anywhere (restrict to specific IPs in production)", false⟩),
         ("EC2SG", ⟨.SecurityGroupId (.attr "BastionSG" "SecurityGroupId"), 22,
            "SSH from bastion host", false⟩)] ∧
      t.Stack.egressRules =
        [("LambdaSG", ⟨.AnyIpv4, 443, "HTTPS outbound for AWS API calls", false⟩)] ∧
      t.Stack.ingressOffPort 22 = [] := by
  simp [NewTapStack_composed, composedStack]
  refine ⟨?_, ?_, ?_⟩
  · intro k h1 h2 h3
    simp [h1, h2, h3]
  · simp [Stack.select, List.filterMap_cons, List.filterMap_append, ssmBlock_select_nil,
      Construct.select, Resource.asSecurityGroup]
  · simp [Stack.ingressOffPort]

/-- C19: the inline policies of the Lambda role are exactly two Allow statements, one
granting s3:GetObject and s3:PutObject on the application bucket's ARN and on that ARN
followed by "/*", the other granting the five KMS actions on the stack key's ARN; no
inline statement of any role has the resource "*"; the function runs under that role
and its S3_BUCKET environment value is the application bucket's name. -/
theorem NewTapStack_lambda_role_least_privilege (scope : App) (id : String)
    (sp : StackProps) (s : String) (range : MapRange) :
    ∃ t, NewTapStack scope id (some ⟨some sp, some s⟩) range = .ok t ∧
      t.S3Bucket = some "ProdS3Bucket" ∧ t.KmsKey = some "ProdKMSKey" ∧
      (t.Stack.select Resource.asRole).map (fun r => (r.1, r.2.InlinePolicies)) =
        [("ProdLambdaRole",
           [("S3Access",
              [{ Effect := "ALLOW"
                 Actions := ["s3:GetObject", "s3:PutObject"]
                 Resources := [.attr "ProdS3Bucket" "BucketArn",
                               .attrCat "ProdS3Bucket" "BucketArn" "/*"] }]),
            ("KMSAccess",
              [{ Effect := "ALLOW"
                 Actions := ["kms:Encrypt", "kms:Decrypt", "kms:ReEncrypt*",
                             "kms:GenerateDataKey*", "kms:DescribeKey"]
                 Resources := [.attr "ProdKMSKey" "KeyArn"] }])]),
         ("ProdEC2Role", [])] ∧
      (∀ r ∈ t.Stack.select Resource.asRole, ∀ st ∈ r.2.inlineStatements,
        Str.lit "*" ∉ st.Resources) ∧
      (t.Stack.select Resource.asFunction).map
          (fun f => (f.1, f.2.Role, f.2.Environment.lookup "S3_BUCKET")) =
        [("ProdLambdaFunction", some "ProdLambdaRole",
          some (.attr "ProdS3Bucket" "BucketName"))] := by
  simp [NewTapStack_composed, composedStack]
  simp [Stack.select, List.filterMap_cons, List.filterMap_append, ssmBlock_select_nil,
    Construct.select, Resource.asRole, Resource.asFunction, List.lookup]
  rintro a b (⟨rfl, rfl⟩ | ⟨rfl, rfl⟩) <;> simp [RoleProps.inlineStatements]

/-- C20, evaluated for every suffix: the stack declares the web ACL `t.WAF`, but the
distribution is declared without a WebAclId and no resource of the stack references the
web ACL, so the distribution is not associated with it. -/
theorem NewTapStack_distribution_without_web_acl (scope : App) (id : String)
    (sp : StackProps) (s : String) (range : MapRange) :
    ∃ t, NewTapStack scope id (some ⟨some sp, some s⟩) range = .ok t ∧
      t.WAF = some "ProdWAF" ∧
      (t.Stack.select Resource.asCfnWebACL).map Prod.fst = ["ProdWAF"] ∧
      (t.Stack.select Resource.asDistribution).map (fun d => (d.1, d.2.WebAclId)) =
        [("ProdCloudFrontDist", none)] ∧
      "ProdWAF" ∉ t.Stack.edges.map Prod.snd := by
  simp [NewTapStack_composed, composedStack]
  refine ⟨?_, ?_, ?_⟩
  · simp [Stack.select, List.filterMap_cons, List.filterMap_append, ssmBlock_select_nil,
      Construct.select, Resource.asCfnWebACL]
  · simp [Stack.select, List.filterMap_cons, List.filterMap_append, ssmBlock_select_nil,
      Construct.select, Resource.asDistribution]
  · simp [Stack.edges, Stack.attachedEdges, List.flatMap_cons, List.flatMap_append,
      ssmBlock_creationEdges, Construct.creationEdges, Resource.refs, handles,
      PolicyStatement.refs, Principal.refs, Str.refs, SubnetSelection.refs, SubnetList.vpc,
      Peer.refs]

/-! ## SSM parameter bindings (claim C13) -/

theorem foldl_set_apply (l : List (String × String)) (m : GoMap Handle) (k : String) :
    (l.foldl (fun m kv => m.set kv.1 ("SSMParam" ++ kv.1)) m) k =
      if k ∈ l.map Prod.fst then some ("SSMParam" ++ k) else m k := by
  induction l generalizing m with
  | nil => simp
  | cons kv l ih =>
    rw [List.foldl_cons, ih]
    by_cases h1 : k ∈ l.map Prod.fst
    · simp [h1]
    · by_cases h2 : k = kv.1
      · simp [h1, h2, GoMap.set]
      · simp [h1, h2, GoMap.set]

theorem ssmBindings_apply (s : String) (range : MapRange) (m : GoMap Handle) (k : String) :
    ssmBindings s range m k =
      if k ∈ ["app-environment", "app-version", "log-level", "max-connections"] then
        some ("SSMParam" ++ k)
      else m k := by
  unfold ssmBindings
  rw [foldl_set_apply]
  have h : k ∈ (range (parameters s)).val.map Prod.fst ↔
      k ∈ ["app-environment", "app-version", "log-level", "max-connections"] := by
    rw [((range (parameters s)).property.map Prod.fst).mem_iff]
    simp [parameters]
  by_cases hk : k ∈ ["app-environment", "app-version", "log-level", "max-connections"]
  · rw [if_pos (h.mpr hk), if_pos hk]
  · rw [if_neg (fun x => hk (h.mp x)), if_neg hk]

/-- C13: for every suffix `s` and every iteration order, the SSMParameters map has
exactly the keys app-environment, app-version, log-level and max-connections, the key k
being bound to the parameter registered as SSMParam followed by k; that parameter is
named /prod-s/k and its value is `s` for app-environment, "1.0.0" for app-version, "INFO"
for log-level and "100" for max-connections. -/
theorem NewTapStack_ssm_parameter_bindings (scope : App) (id : String)
    (sp : StackProps) (s : String) (range : MapRange) :
    ∃ t, NewTapStack scope id (some ⟨some sp, some s⟩) range = .ok t ∧
      (∀ k, t.SSMParameters k =
        if k ∈ ["app-environment", "app-version", "log-level", "max-connections"] then
          some ("SSMParam" ++ k)
        else none) ∧
      (t.Stack.select Resource.asStringParameter).Perm
        [("SSMParam" ++ "app-environment",
            { ParameterName := "/prod-" ++ s ++ "/" ++ "app-environment"
              StringValue := s
              Description := "Configuration parameter for " ++ "app-environment" }),
         ("SSMParam" ++ "app-version",
            { ParameterName := "/prod-" ++ s ++ "/" ++ "app-version"
              StringValue := "1.0.0"
              Description := "Configuration parameter for " ++ "app-version" }),
         ("SSMParam" ++ "log-level",
            { ParameterName := "/prod-" ++ s ++ "/" ++ "log-level"
              StringValue := "INFO"
              Description := "Configuration parameter for " ++ "log-level" }),
         ("SSMParam" ++ "max-connections",
            { ParameterName := "/prod-" ++ s ++ "/" ++ "max-connections"
              StringValue := "100"
              Description := "Configuration parameter for " ++ "max-connections" })] := by
  simp [NewTapStack_composed, composedStack]
  refine ⟨?_, ?_⟩
  · intro k
    rw [ssmBindings_apply]
    simp [GoMap.empty]
  · simp only [Stack.select, List.filterMap_cons, List.filterMap_append, List.filterMap_nil,
      Construct.select, Resource.asStringParameter, Option.map, List.nil_append,
      List.append_nil]
    have := (ssmBlock_perm s range).filterMap (Construct.select Resource.asStringParameter)
    simpa [parameters, ssmConstruct, Construct.select, Resource.asStringParameter] using this

/-! ## Names without an environment (claim C14) -/

theorem embedsAccount_append (p account : String) : embedsAccount account (p ++ account) := by
  refine ⟨p.data, [], ?_⟩
  simp [String.data_append]

/-- C14 (amended): without account and region NewTapStack does not fail, but the three
bucket names are still account-qualified: each ends in the stack's account token. Every
declaration other than the three buckets, its physical name included, is the same under
every environment, so no other name carries an account component. -/
theorem NewTapStack_bucket_names_keep_account_token (scope : App) (id : String)
    (s : String) (range : MapRange) (env : Option Environment) :
    ∃ t0 t, NewTapStack scope id (some ⟨some { Env := none }, some s⟩) range = .ok t0 ∧
      NewTapStack scope id (some ⟨some { Env := env }, some s⟩) range = .ok t ∧
      t0.Stack.Account = accountToken ∧
      t0.Stack.namesOf .Bucket =
        [some ("prod-" ++ s ++ "-vpc-flow-logs-" ++ accountToken),
         some ("prod-" ++ s ++ "-app-bucket-" ++ accountToken),
         some ("prod-" ++ s ++ "-logging-bucket-" ++ accountToken)] ∧
      (∀ n ∈ t0.Stack.namesOf .Bucket,
        ∃ name, n = some name ∧ embedsAccount accountToken name) ∧
      t0.Stack.constructs.filter (Construct.notKind .Bucket) =
        t.Stack.constructs.filter (Construct.notKind .Bucket) := by
  simp [NewTapStack_composed, composedStack]
  have hn : ∀ (x : Stack), x.namesOf .Bucket =
      (x.constructs.filter (Construct.hasKind .Bucket)).map Construct.physicalName :=
    fun _ => rfl
  refine ⟨by simp [accountOf], ?_, ?_, ?_⟩
  · simp [hn, List.filter_cons, List.filter_append, ssmBlock_filter_ne, Construct.hasKind,
      Construct.kind, Resource.kind, Construct.physicalName, Resource.physicalName, accountOf]
  · simp only [hn]
    simp [List.filter_cons, List.filter_append, ssmBlock_filter_ne, Construct.hasKind,
      Construct.kind, Resource.kind, Construct.physicalName, Resource.physicalName, accountOf,
      embedsAccount_append]
  · simp [List.filter_cons, List.filter_append, Construct.notKind, Construct.hasKind,
      Construct.kind, Resource.kind]

/-- C14 (counterexample): for suffix "dev" and no environment, the application bucket's
physical name prod-dev-app-bucket- followed by the account token embeds the stack's
account. -/
theorem NewTapStack_bucket_name_embeds_account_token :
    ∃ t, NewTapStack { context := fun _ => none } "TapStackdev"
        (some ⟨some { Env := none }, some "dev"⟩) rangeInOrder = .ok t ∧
      ¬ t.Stack.NamesOmitAccount := by
  simp [NewTapStack_composed, composedStack]
  intro h
  refine h ⟨"ProdS3Bucket", .Bucket {
      BucketName := "prod-" ++ "dev" ++ "-app-bucket-" ++ accountToken
      Versioned := true
      RemovalPolicy := .DESTROY
      AutoDeleteObjects := true
      BlockPublicAccess := BlockPublicAccess_BLOCK_ALL
      EncryptionKey := some "ProdKMSKey"
      Encryption := .KMS }⟩ ?_ ("prod-" ++ "dev" ++ "-app-bucket-" ++ accountToken) rfl ?_
  · simp [accountOf]
  · simpa [accountOf, Stack.Account] using embedsAccount_append "prod-dev-app-bucket-" accountToken

/-! ## Repository and author metadata (claim C15) -/

theorem NewTapStack_congr_context (a b : App) (h : a.context = b.context) (id : String)
    (props : Option TapStackProps) (range : MapRange) :
    NewTapStack a id props range = NewTapStack b id props range := by
  rw [NewTapStack, NewTapStack]
  simp only [NewStack, h]

/-- C15: two runs of main that differ only in the values of REPOSITORY and COMMIT_AUTHOR
have the same stack name, pass the same props and build the same stack; only the app
tags Repository and Author follow those variables, and each is "unknown" when its
variable is unset or empty. -/
theorem main_metadata_only_in_tags (context : String → Option CtxValue)
    (e1 e2 : Environ) (range : MapRange)
    (h : ∀ k, k ≠ "REPOSITORY" → k ≠ "COMMIT_AUTHOR" → e1 k = e2 k) :
    (main context e1 range).stackName = (main context e2 range).stackName ∧
    (main context e1 range).props = (main context e2 range).props ∧
    (main context e1 range).stack = (main context e2 range).stack ∧
    (main context e1 range).app.tags =
      [("Environment", mainEnvironmentSuffix ⟨context, []⟩),
       ("Repository", getEnv e1 "REPOSITORY" "unknown"),
       ("Author", getEnv e1 "COMMIT_AUTHOR" "unknown")] ∧
    (main context e2 range).app.tags =
      [("Environment", mainEnvironmentSuffix ⟨context, []⟩),
       ("Repository", getEnv e2 "REPOSITORY" "unknown"),
       ("Author", getEnv e2 "COMMIT_AUTHOR" "unknown")] ∧
    ∀ (e : Environ) (key : String), (e key = none ∨ e key = some "") →
      getEnv e key "unknown" = "unknown" := by
  have ha : e1 "CDK_DEFAULT_ACCOUNT" = e2 "CDK_DEFAULT_ACCOUNT" := h _ (by decide) (by decide)
  have hr : e1 "CDK_DEFAULT_REGION" = e2 "CDK_DEFAULT_REGION" := h _ (by decide) (by decide)
  have hprops : (main context e1 range).props = (main context e2 range).props := by
    simp only [main, getEnv, os.Getenv, ha, hr]
  refine ⟨rfl, hprops, ?_, rfl, rfl, ?_⟩
  · have h1 : (main context e1 range).stack =
        NewTapStack (main context e1 range).app (main context e1 range).stackName
          (some (main context e1 range).props) range := rfl
    have h2 : (main context e2 range).stack =
        NewTapStack (main context e2 range).app (main context e2 range).stackName
          (some (main context e2 range).props) range := rfl
    rw [h1, h2, hprops]
    exact NewTapStack_congr_context _ _ rfl _ _ _
  · rintro e key (hk | hk) <;> simp [getEnv, os.Getenv, hk]

/-- C15 at a concrete pair of environments: with REPOSITORY set to "infra" and with no
variable set at all, main builds the same stack from the same props. -/
theorem main_metadata_only_in_tags_witness :
    (main (fun _ => none) (fun k => if k = "REPOSITORY" then some "infra" else none)
        rangeInOrder).stack =
      (main (fun _ => none) (fun _ => none) rangeInOrder).stack ∧
    (main (fun _ => none) (fun k => if k = "REPOSITORY" then some "infra" else none)
        rangeInOrder).props =
      (main (fun _ => none) (fun _ => none) rangeInOrder).props :=
  ⟨(main_metadata_only_in_tags (fun _ => none)
      (fun k => if k = "REPOSITORY" then some "infra" else none)
      (fun _ => none) rangeInOrder (fun k h1 _ => by simp [h1])).2.2.1,
   (main_metadata_only_in_tags (fun _ => none)
      (fun k => if k = "REPOSITORY" then some "infra" else none)
      (fun _ => none) rangeInOrder (fun k h1 _ => by simp [h1])).2.1⟩

/-! ## Secret rotation (claim C21) -/

/-- C21, evaluated for every suffix: the stack declares the secret ProdAppSecrets, named
prod-s/app-secrets and held in `t.SecretsManager`, but no rotation schedule is added to
any secret and no resource of the stack references the secret, so the secret has no
automatic rotation. -/
theorem NewTapStack_secret_without_rotation (scope : App) (id : String)
    (sp : StackProps) (s : String) (range : MapRange) :
    ∃ t, NewTapStack scope id (some ⟨some sp, some s⟩) range = .ok t ∧
      t.SecretsManager = some "ProdAppSecrets" ∧
      (t.Stack.select Resource.asSecret).map (fun x => (x.1, x.2.SecretName)) =
        [("ProdAppSecrets", "prod-" ++ s ++ "/app-secrets")] ∧
      t.Stack.rotationSchedules = [] ∧
      "ProdAppSecrets" ∉ t.Stack.edges.map Prod.snd := by
  simp [NewTapStack_composed, composedStack]
  refine ⟨?_, ?_⟩
  · simp [Stack.select, List.filterMap_cons, List.filterMap_append, ssmBlock_select_nil,
      Construct.select, Resource.asSecret]
  · simp [Stack.edges, Stack.attachedEdges, List.flatMap_cons, List.flatMap_append,
      ssmBlock_creationEdges, Construct.creationEdges, Resource.refs, handles,
      PolicyStatement.refs, Principal.refs, Str.refs, SubnetSelection.refs, SubnetList.vpc,
      Peer.refs]

/-! ## Logical ids (claim C22) -/

theorem ssmBlock_ids_perm (s : String) (range : MapRange) :
    ((ssmBlock s range).map Construct.id).Perm
      ["SSMParam" ++ "app-environment", "SSMParam" ++ "app-version", "SSMParam" ++ "log-level",
       "SSMParam" ++ "max-connections"] := by
  have := (ssmBlock_perm s range).map Construct.id
  simpa [parameters, ssmConstruct] using this

theorem perm_within (pre mid mid2 post : List String) (h : mid.Perm mid2) :
    (pre ++ (mid ++ post)).Perm (pre ++ (mid2 ++ post)) :=
  (h.append_right post).append_left pre

theorem perm_and_nodup (l m : List String) (h : l.Perm m) (hn : m.Nodup) :
    l.Perm m ∧ l.Nodup :=
  ⟨h, h.nodup_iff.mpr hn⟩

/-- C22: for every suffix and iteration order, the construct ids NewTapStack registers in
the stack scope are the 25 resource ids, the four ids SSMParam followed by a key of the
parameter map, and the six output ids; they are pairwise distinct. -/
theorem NewTapStack_logical_ids_distinct (scope : App) (id : String)
    (sp : StackProps) (s : String) (range : MapRange) :
    ∃ t, NewTapStack scope id (some ⟨some sp, some s⟩) range = .ok t ∧
      t.Stack.ids.Perm
        ["ProdKMSKey", "ProdKMSKeyAlias", "ProdVPC", "VPCFlowLogsBucket", "VPCFlowLog",
         "LambdaSG", "EC2SG", "BastionSG", "ProdS3Bucket", "ProdLoggingBucket",
         "ProdAppSecrets",
         "SSMParam" ++ "app-environment", "SSMParam" ++ "app-version",
         "SSMParam" ++ "log-level", "SSMParam" ++ "max-connections",
         "ProdSecurityAlerts", "ProdLambdaRole", "ProdLambdaLogGroup", "ProdLambdaFunction",
         "ProdEC2Role", "ProdLaunchTemplate", "ProdAutoScalingGroup", "ProdBastionHost",
         "ProdCloudFrontOAI", "ProdCloudFrontDist", "ProdWAF", "CloudTrailLogGroup",
         "ProdCloudTrail", "LambdaErrorAlarm",
         "VPCId", "S3BucketName", "CloudFrontDomainName", "LambdaFunctionArn",
         "BastionHostId", "KMSKeyId"] ∧
      t.Stack.ids.Nodup ∧
      (t.Stack.select Resource.asCfnOutput).map Prod.fst =
        ["VPCId", "S3BucketName", "CloudFrontDomainName", "LambdaFunctionArn",
         "BastionHostId", "KMSKeyId"] ∧
      ((t.Stack.select Resource.asStringParameter).map Prod.fst).Perm
        ["SSMParam" ++ "app-environment", "SSMParam" ++ "app-version",
         "SSMParam" ++ "log-level", "SSMParam" ++ "max-connections"] := by
  simp [NewTapStack_composed, composedStack]
  rw [← and_assoc]
  refine ⟨perm_and_nodup _ _ ?_ (by simp), ?_, ?_⟩
  · simp only [Stack.ids, List.map_cons, List.map_append, List.map_nil]
    exact perm_within
      ["ProdKMSKey", "ProdKMSKeyAlias", "ProdVPC", "VPCFlowLogsBucket", "VPCFlowLog",
       "LambdaSG", "EC2SG", "BastionSG", "ProdS3Bucket", "ProdLoggingBucket", "ProdAppSecrets"]
      _ _
      ["ProdSecurityAlerts", "ProdLambdaRole", "ProdLambdaLogGroup", "ProdLambdaFunction",
       "ProdEC2Role", "ProdLaunchTemplate", "ProdAutoScalingGroup", "ProdBastionHost",
       "ProdCloudFrontOAI", "ProdCloudFrontDist", "ProdWAF", "CloudTrailLogGroup",
       "ProdCloudTrail", "LambdaErrorAlarm",
       "VPCId", "S3BucketName", "CloudFrontDomainName", "LambdaFunctionArn",
       "BastionHostId", "KMSKeyId"]
      (ssmBlock_ids_perm s range)
  · simp [Stack.select, List.filterMap_cons, List.filterMap_append, ssmBlock_select_nil,
      Construct.select, Resource.asCfnOutput]
  · simp only [Stack.select, List.filterMap_cons, List.filterMap_append, List.filterMap_nil,
      Construct.select, Resource.asStringParameter, Option.map, List.nil_append,
      List.append_nil]
    have := ((ssmBlock_perm s range).filterMap
      (Construct.select Resource.asStringParameter)).map Prod.fst
    simpa [parameters, ssmConstruct, Construct.select, Resource.asStringParameter] using this

/-! ## Bucket names across contexts (claim C23) -/

theorem digits_suffix_unique (x y a b : List Char) (d : Char) (hd : d.isDigit = false)
    (ha : ∀ c ∈ a, c.isDigit = true) (hb : ∀ c ∈ b, c.isDigit = true)
    (h : (x ++ [d]) ++ a = (y ++ [d]) ++ b) : x = y ∧ a = b := by
  have key : ∀ (x y z a b : List Char), (∀ c ∈ a, c.isDigit = true) →
      y ++ [d] = (x ++ [d]) ++ z → a = z ++ b → a = b := by
    intro x y z a b ha hz haz
    rcases List.eq_nil_or_concat z with rfl | ⟨w, l, rfl⟩
    · simpa using haz
    · have hlast : d = l := by
        have := congrArg List.getLast? hz
        simpa [← List.append_assoc] using this
      have : l.isDigit = true := ha l (by simp [haz])
      rw [← hlast, hd] at this
      cases this
  have hab : a = b := by
    rcases List.append_eq_append_iff.mp h with ⟨z, hz, haz⟩ | ⟨z, hz, hbz⟩
    · exact key x y z a b ha hz haz
    · exact (key y x z b a hb hz hbz).symm
  subst hab
  have := List.append_cancel_right h
  exact ⟨by simpa using this, rfl⟩

theorem name_determines_context (p m s1 s2 a1 a2 : String) (d : Char)
    (hd : d.isDigit = false) (hm : ∃ m0, m.data = m0 ++ [d])
    (h1 : ∀ c ∈ a1.data, c.isDigit = true) (h2 : ∀ c ∈ a2.data, c.isDigit = true)
    (h : p ++ s1 ++ m ++ a1 = p ++ s2 ++ m ++ a2) : s1 = s2 ∧ a1 = a2 := by
  obtain ⟨m0, hm0⟩ := hm
  have := congrArg String.data h
  simp only [String.data_append, hm0, List.append_assoc] at this
  have h3 := List.append_cancel_left this
  simp only [← List.append_assoc] at h3
  rcases digits_suffix_unique _ _ _ _ d hd h1 h2 h3 with ⟨hs, ha⟩
  exact ⟨String.ext (List.append_cancel_right hs), String.ext ha⟩

/-- C23: for suffixes s1, s2 and accounts a1, a2 made of decimal digits only, the stacks
built for (s1, a1) and (s2, a2) name their buckets prod-s-vpc-flow-logs-a, prod-s-app-bucket-a
and prod-s-logging-bucket-a, and if the two stacks give any one of the three buckets the
same name then s1 = s2 and a1 = a2. -/
theorem NewTapStack_bucket_names_determine_context (scope1 scope2 : App) (id1 id2 : String)
    (s1 s2 a1 a2 : String) (region1 region2 : Option String) (range1 range2 : MapRange)
    (h1 : ∀ c ∈ a1.data, c.isDigit = true) (h2 : ∀ c ∈ a2.data, c.isDigit = true) :
    ∃ t1 t2,
      NewTapStack scope1 id1 (some ⟨some { Env := some ⟨some a1, region1⟩ }, some s1⟩)
        range1 = .ok t1 ∧
      NewTapStack scope2 id2 (some ⟨some { Env := some ⟨some a2, region2⟩ }, some s2⟩)
        range2 = .ok t2 ∧
      t1.Stack.buckets.map (fun b => (b.1, b.2.BucketName)) =
        [("VPCFlowLogsBucket", "prod-" ++ s1 ++ "-vpc-flow-logs-" ++ a1),
         ("ProdS3Bucket", "prod-" ++ s1 ++ "-app-bucket-" ++ a1),
         ("ProdLoggingBucket", "prod-" ++ s1 ++ "-logging-bucket-" ++ a1)] ∧
      t2.Stack.buckets.map (fun b => (b.1, b.2.BucketName)) =
        [("VPCFlowLogsBucket", "prod-" ++ s2 ++ "-vpc-flow-logs-" ++ a2),
         ("ProdS3Bucket", "prod-" ++ s2 ++ "-app-bucket-" ++ a2),
         ("ProdLoggingBucket", "prod-" ++ s2 ++ "-logging-bucket-" ++ a2)] ∧
      ∀ b ∈ ["VPCFlowLogsBucket", "ProdS3Bucket", "ProdLoggingBucket"],
        t1.Stack.bucketName b = t2.Stack.bucketName b → s1 = s2 ∧ a1 = a2 := by
  simp [NewTapStack_composed, composedStack]
  simp [Stack.bucketName, Stack.buckets, List.filterMap_cons, List.filterMap_append,
    ssmBlock_not_bucket, Construct.asBucket, accountOf, List.lookup]
  have hdash : ('-' : Char).isDigit = false := by decide
  refine ⟨?_, ?_, ?_⟩
  · exact name_determines_context "prod-" "-vpc-flow-logs-" s1 s2 a1 a2 '-' hdash
      ⟨"-vpc-flow-logs".data, rfl⟩ h1 h2
  · exact name_determines_context "prod-" "-app-bucket-" s1 s2 a1 a2 '-' hdash
      ⟨"-app-bucket".data, rfl⟩ h1 h2
  · exact name_determines_context "prod-" "-logging-bucket-" s1 s2 a1 a2 '-' hdash
      ⟨"-logging-bucket".data, rfl⟩ h1 h2

/-- C23 at two concrete contexts, ("dev", "111122223333") and ("qa", "444455556666"): the
two stacks cannot give a bucket the same name, as that would make the contexts equal. -/
theorem NewTapStack_bucket_names_determine_context_witness :
    ∃ t1 t2,
      NewTapStack { context := fun _ => none } "TapStackdev"
        (some ⟨some { Env := some ⟨some "111122223333", some "us-east-1"⟩ }, some "dev"⟩)
        rangeInOrder = .ok t1 ∧
      NewTapStack { context := fun _ => none } "TapStackqa"
        (some ⟨some { Env := some ⟨some "444455556666", some "us-east-1"⟩ }, some "qa"⟩)
        rangeInOrder = .ok t2 ∧
      t1.Stack.buckets.map (fun b => (b.1, b.2.BucketName)) =
        [("VPCFlowLogsBucket", "prod-" ++ "dev" ++ "-vpc-flow-logs-" ++ "111122223333"),
         ("ProdS3Bucket", "prod-" ++ "dev" ++ "-app-bucket-" ++ "111122223333"),
         ("ProdLoggingBucket", "prod-" ++ "dev" ++ "-logging-bucket-" ++ "111122223333")] ∧
      t2.Stack.buckets.map (fun b => (b.1, b.2.BucketName)) =
        [("VPCFlowLogsBucket", "prod-" ++ "qa" ++ "-vpc-flow-logs-" ++ "444455556666"),
         ("ProdS3Bucket", "prod-" ++ "qa" ++ "-app-bucket-" ++ "444455556666"),
         ("ProdLoggingBucket", "prod-" ++ "qa" ++ "-logging-bucket-" ++ "444455556666")] ∧
      ∀ b ∈ ["VPCFlowLogsBucket", "ProdS3Bucket", "ProdLoggingBucket"],
        t1.Stack.bucketName b = t2.Stack.bucketName b →
          "dev" = "qa" ∧ "111122223333" = "444455556666" :=
  NewTapStack_bucket_names_determine_context { context := fun _ => none }
    { context := fun _ => none } "TapStackdev" "TapStackqa" "dev" "qa" "111122223333"
    "444455556666" (some "us-east-1") (some "us-east-1") rangeInOrder rangeInOrder
    (by decide) (by decide)

/-! ## Environment variables with a fallback (claim C24) -/

/-- C24: getEnv returns the variable's value when it is set and non-empty and the
fallback otherwise; a variable set to the empty string gives the same result as an
unset one, and the result is non-empty whenever the fallback is non-empty. -/
theorem getEnv_value_or_fallback (environ : Environ) (key fallback : String) :
    (∀ v, environ key = some v → v ≠ "" → getEnv environ key fallback = v) ∧
    (environ key = none → getEnv environ key fallback = fallback) ∧
    (environ key = some "" → getEnv environ key fallback = fallback) ∧
    getEnv (Function.update environ key (some "")) key fallback =
      getEnv (Function.update environ key none) key fallback ∧
    (fallback ≠ "" → getEnv environ key fallback ≠ "") := by
  refine ⟨?_, ?_, ?_, ?_, ?_⟩
  · intro v h hv
    simp [getEnv, os.Getenv, h, hv]
  · intro h
    simp [getEnv, os.Getenv, h]
  · intro h
    simp [getEnv, os.Getenv, h]
  · simp [getEnv, os.Getenv]
  · intro hf
    cases h : environ key with
    | none => simpa [getEnv, os.Getenv, h] using hf
    | some v =>
      by_cases hv : v = ""
      · simpa [getEnv, os.Getenv, h, hv] using hf
      · simp [getEnv, os.Getenv, h, hv]

/-- C24 at a concrete environment: with REPOSITORY set to "infra" the result is "infra",
and with fallback "unknown" the result is not empty. -/
theorem getEnv_value_or_fallback_witness :
    getEnv (fun k => if k = "REPOSITORY" then some "infra" else none) "REPOSITORY" "unknown" =
      "infra" ∧
    getEnv (fun k => if k = "REPOSITORY" then some "" else none) "REPOSITORY" "unknown" ≠ "" :=
  ⟨(getEnv_value_or_fallback (fun k => if k = "REPOSITORY" then some "infra" else none)
      "REPOSITORY" "unknown").1 "infra" rfl (by decide),
   (getEnv_value_or_fallback (fun k => if k = "REPOSITORY" then some "" else none)
      "REPOSITORY" "unknown").2.2.2.2 (by decide)⟩

/-! ## Iteration order of the SSM loop (claim C25) -/

/-- C25: run on any state, createSSMParameters leaves the same state whatever the order in
which the range visits the four entries: the SSMParameters map gains the same four
bindings, the same four parameters are declared after the constructs already present,
and everything but the registration order of those four is equal; the registration order
itself follows the iteration order. -/
theorem createSSMParameters_order_insensitive (t : TapStack) (r1 r2 : MapRange) :
    ∃ t1 t2, createSSMParameters r1 t = .ok t1 ∧ createSSMParameters r2 t = .ok t2 ∧
      t1.SSMParameters = t2.SSMParameters ∧
      (∀ k, t1.SSMParameters k =
        if k ∈ ["app-environment", "app-version", "log-level", "max-connections"] then
          some ("SSMParam" ++ k)
        else t.SSMParameters k) ∧
      (∃ b1 b2, t1.Stack.constructs = t.Stack.constructs ++ b1 ∧
        t2.Stack.constructs = t.Stack.constructs ++ b2 ∧ b1.Perm b2 ∧
        b1.Perm
          [⟨"SSMParam" ++ "app-environment", .StringParameter {
              ParameterName := "/prod-" ++ t.EnvironmentSuffix ++ "/" ++ "app-environment"
              StringValue := t.EnvironmentSuffix
              Description := "Configuration parameter for " ++ "app-environment" }⟩,
           ⟨"SSMParam" ++ "app-version", .StringParameter {
              ParameterName := "/prod-" ++ t.EnvironmentSuffix ++ "/" ++ "app-version"
              StringValue := "1.0.0"
              Description := "Configuration parameter for " ++ "app-version" }⟩,
           ⟨"SSMParam" ++ "log-level", .StringParameter {
              ParameterName := "/prod-" ++ t.EnvironmentSuffix ++ "/" ++ "log-level"
              StringValue := "INFO"
              Description := "Configuration parameter for " ++ "log-level" }⟩,
           ⟨"SSMParam" ++ "max-connections", .StringParameter {
              ParameterName := "/prod-" ++ t.EnvironmentSuffix ++ "/" ++ "max-connections"
              StringValue := "100"
              Description := "Configuration parameter for " ++ "max-connections" }⟩]) ∧
      { t1 with Stack := { t1.Stack with constructs := [] } } =
        { t2 with Stack := { t2.Stack with constructs := [] } } ∧
      ((r1 (parameters t.EnvironmentSuffix)).val = (r2 (parameters t.EnvironmentSuffix)).val →
        t1.Stack.constructs = t2.Stack.constructs) ∧
      ∃ u1 u2, createSSMParameters rangeInOrder t = .ok u1 ∧
        createSSMParameters rangeReversed t = .ok u2 ∧
        u1.Stack.constructs ≠ u2.Stack.constructs := by
  have hb : ∀ r : MapRange, ssmBindings t.EnvironmentSuffix r t.SSMParameters =
      ssmBindings t.EnvironmentSuffix r1 t.SSMParameters := by
    intro r
    funext k
    rw [ssmBindings_apply, ssmBindings_apply]
  refine ⟨_, _, createSSMParameters_eq r1 t, createSSMParameters_eq r2 t, (hb r2).symm, ?_,
    ⟨_, _, rfl, rfl, (ssmBlock_perm _ r1).trans (ssmBlock_perm _ r2).symm, ?_⟩, ?_, ?_, ?_⟩
  · intro k
    exact ssmBindings_apply _ _ _ _
  · simpa [parameters, ssmConstruct] using ssmBlock_perm t.EnvironmentSuffix r1
  · simp [hb r2]
  · intro h
    simp [ssmBlock, h]
  · refine ⟨_, _, createSSMParameters_eq _ t, createSSMParameters_eq _ t, ?_⟩
    simp [ssmBlock, rangeInOrder, rangeReversed, parameters, ssmConstruct]

/-! ## Fields read by the create steps (claim C26) -/

theorem ssmBlock_all_nilFree (s : String) (range : MapRange) :
    (ssmBlock s range).all Construct.nilFree = true := by
  rw [List.all_eq_true]
  intro c hc
  rcases mem_ssmBlock_cases s range c hc with h | h | h | h <;>
    simp [h, ssmConstruct, Construct.nilFree, Resource.handleProps, Resource.subnetListProps]

theorem nilFree_of_all (s : Stack) (h : s.constructs.all Construct.nilFree = true) :
    s.NilFree :=
  fun c hc => List.all_eq_true.mp h c hc

theorem createKMSKey_fields (t : TapStack) :
    ∃ u, createKMSKey t = .ok u ∧
      u.crossStepFields = (some "ProdKMSKey", t.Vpc, t.PrivateSubnets, t.SecurityGroups,
        t.S3Bucket, t.LoggingBucket, t.LambdaFunction, t.CloudFrontDist, t.BastionHost) := by
  simp [bind, Except.bind, pure, Except.pure, TapStack.crossStepFields]

theorem createNetworking_fields (t : TapStack) :
    ∃ u, createNetworking t = .ok u ∧
      u.crossStepFields = (t.KmsKey, some "ProdVPC", some (.privateOf "ProdVPC"),
        t.SecurityGroups, t.S3Bucket, t.LoggingBucket, t.LambdaFunction, t.CloudFrontDist,
        t.BastionHost) := by
  simp [bind, Except.bind, pure, Except.pure, TapStack.crossStepFields]

theorem createSecurityGroups_fields (t : TapStack) :
    ∃ u, createSecurityGroups t = .ok u ∧
      u.crossStepFields = (t.KmsKey, t.Vpc, t.PrivateSubnets,
        ((t.SecurityGroups.set "lambda" "LambdaSG").set "ec2" "EC2SG").set "bastion" "BastionSG",
        t.S3Bucket, t.LoggingBucket, t.LambdaFunction, t.CloudFrontDist, t.BastionHost) := by
  simp [bind, Except.bind, pure, Except.pure, TapStack.crossStepFields]

theorem createS3Resources_fields (t : TapStack) :
    ∃ u, createS3Resources t = .ok u ∧
      u.crossStepFields = (t.KmsKey, t.Vpc, t.PrivateSubnets, t.SecurityGroups,
        some "ProdS3Bucket", some "ProdLoggingBucket", t.LambdaFunction, t.CloudFrontDist,
        t.BastionHost) := by
  simp [bind, Except.bind, pure, Except.pure, TapStack.crossStepFields]

theorem createSecretsManager_fields (t : TapStack) :
    ∃ u, createSecretsManager t = .ok u ∧ u.crossStepFields = t.crossStepFields := by
  simp [bind, Except.bind, pure, Except.pure, TapStack.crossStepFields]

theorem createSSMParameters_fields (range : MapRange) (t : TapStack) :
    ∃ u, createSSMParameters range t = .ok u ∧ u.crossStepFields = t.crossStepFields := by
  simp [TapStack.crossStepFields]

theorem createSNSAlerts_fields (t : TapStack) :
    ∃ u, createSNSAlerts t = .ok u ∧ u.crossStepFields = t.crossStepFields := by
  simp [bind, Except.bind, pure, Except.pure, TapStack.crossStepFields]

theorem createLambdaFunction_fields (t : TapStack) (bucket key : Handle)
    (hb : t.S3Bucket = some bucket) (hk : t.KmsKey = some key) :
    ∃ u, createLambdaFunction t = .ok u ∧
      u.crossStepFields = (t.KmsKey, t.Vpc, t.PrivateSubnets, t.SecurityGroups, t.S3Bucket,
        t.LoggingBucket, some "ProdLambdaFunction", t.CloudFrontDist, t.BastionHost) := by
  simp [bind, Except.bind, pure, Except.pure, TapStack.crossStepFields, hb, hk]

theorem createEC2Resources_fields (t : TapStack) :
    ∃ u, createEC2Resources t = .ok u ∧ u.crossStepFields = t.crossStepFields := by
  simp [bind, Except.bind, pure, Except.pure, TapStack.crossStepFields]

theorem createBastionHost_fields (t : TapStack) :
    ∃ u, createBastionHost t = .ok u ∧
      u.crossStepFields = (t.KmsKey, t.Vpc, t.PrivateSubnets, t.SecurityGroups, t.S3Bucket,
        t.LoggingBucket, t.LambdaFunction, t.CloudFrontDist, some "ProdBastionHost") := by
  simp [bind, Except.bind, pure, Except.pure, TapStack.crossStepFields]

theorem createCloudFront_fields (t : TapStack) (bucket : Handle)
    (hb : t.S3Bucket = some bucket) :
    ∃ u, createCloudFront t = .ok u ∧
      u.crossStepFields = (t.KmsKey, t.Vpc, t.PrivateSubnets, t.SecurityGroups, t.S3Bucket,
        t.LoggingBucket, t.LambdaFunction, some "ProdCloudFrontDist", t.BastionHost) := by
  simp [bind, Except.bind, pure, Except.pure, TapStack.crossStepFields, hb]

theorem createWAF_fields (t : TapStack) :
    ∃ u, createWAF t = .ok u ∧ u.crossStepFields = t.crossStepFields := by
  simp [TapStack.crossStepFields]

theorem createMonitoring_fields (t : TapStack) (fn : Handle)
    (hf : t.LambdaFunction = some fn) :
    ∃ u, createMonitoring t = .ok u ∧ u.crossStepFields = t.crossStepFields := by
  simp [bind, Except.bind, pure, Except.pure, TapStack.crossStepFields, hf]

theorem createOutputs_fields (t : TapStack) (vpc bucket dist fn bastion key : Handle)
    (hv : t.Vpc = some vpc) (hb : t.S3Bucket = some bucket) (hd : t.CloudFrontDist = some dist)
    (hf : t.LambdaFunction = some fn) (hh : t.BastionHost = some bastion)
    (hk : t.KmsKey = some key) :
    ∃ u, createOutputs t = .ok u ∧ u.crossStepFields = t.crossStepFields := by
  simp [bind, Except.bind, pure, Except.pure, TapStack.crossStepFields, hv, hb, hd, hf, hh, hk]

/-- C26: in the call order of NewTapStack every step returns without a panic, and at the
entry of each step the fields and SecurityGroups keys it reads from earlier steps are set:
KmsKey for createNetworking and createS3Resources, Vpc for createSecurityGroups, S3Bucket,
KmsKey, Vpc, PrivateSubnets and SecurityGroups[lambda] for createLambdaFunction,
SecurityGroups[ec2], Vpc and PrivateSubnets for createEC2Resources, Vpc and
SecurityGroups[bastion] for createBastionHost, S3Bucket and LoggingBucket for
createCloudFront, LoggingBucket and LambdaFunction for createMonitoring, and Vpc, S3Bucket,
CloudFrontDist, LambdaFunction, BastionHost and KmsKey for createOutputs; the state after
the last step is the stack NewTapStack returns, and no declaration in it holds a nil where
a field or a map entry was read. -/
theorem NewTapStack_steps_read_assigned_fields (scope : App) (id : String)
    (sp : StackProps) (s : String) (range : MapRange) :
    ∃ t1 t2 t3 t4 t5 t6 t7 t8 t9 t10 t11 t12 t13 t14,
      createKMSKey {
        Stack := (((NewStack scope id sp).addStackTag "Environment" s).addStackTag "Project"
          ("prod-" ++ s)).addStackTag "ManagedBy" "CDK"
        EnvironmentSuffix := s
        SecurityGroups := GoMap.empty
        SSMParameters := GoMap.empty } = .ok t1 ∧
      t1.KmsKey = some "ProdKMSKey" ∧
      createNetworking t1 = .ok t2 ∧
      t2.Vpc = some "ProdVPC" ∧
      createSecurityGroups t2 = .ok t3 ∧
      t3.KmsKey = some "ProdKMSKey" ∧
      createS3Resources t3 = .ok t4 ∧
      createSecretsManager t4 = .ok t5 ∧
      createSSMParameters range t5 = .ok t6 ∧
      createSNSAlerts t6 = .ok t7 ∧
      t7.S3Bucket = some "ProdS3Bucket" ∧ t7.KmsKey = some "ProdKMSKey" ∧
      t7.Vpc = some "ProdVPC" ∧ t7.PrivateSubnets = some (.privateOf "ProdVPC") ∧
      t7.SecurityGroups "lambda" = some "LambdaSG" ∧
      createLambdaFunction t7 = .ok t8 ∧
      t8.SecurityGroups "ec2" = some "EC2SG" ∧ t8.Vpc = some "ProdVPC" ∧
      t8.PrivateSubnets = some (.privateOf "ProdVPC") ∧
      createEC2Resources t8 = .ok t9 ∧
      t9.Vpc = some "ProdVPC" ∧ t9.SecurityGroups "bastion" = some "BastionSG" ∧
      createBastionHost t9 = .ok t10 ∧
      t10.S3Bucket = some "ProdS3Bucket" ∧ t10.LoggingBucket = some "ProdLoggingBucket" ∧
      createCloudFront t10 = .ok t11 ∧
      createWAF t11 = .ok t12 ∧
      t12.LoggingBucket = some "ProdLoggingBucket" ∧
      t12.LambdaFunction = some "ProdLambdaFunction" ∧
      createMonitoring t12 = .ok t13 ∧
      t13.Vpc = some "ProdVPC" ∧ t13.S3Bucket = some "ProdS3Bucket" ∧
      t13.CloudFrontDist = some "ProdCloudFrontDist" ∧
      t13.LambdaFunction = some "ProdLambdaFunction" ∧
      t13.BastionHost = some "ProdBastionHost" ∧ t13.KmsKey = some "ProdKMSKey" ∧
      createOutputs t13 = .ok t14 ∧
      NewTapStack scope id (some ⟨some sp, some s⟩) range = .ok t14 ∧
      t14.Stack.NilFree := by
  have hc := NewTapStack_composed scope id sp s range
  rw [NewTapStack_explicit] at hc ⊢
  generalize ({
      Stack := (((NewStack scope id sp).addStackTag "Environment" s).addStackTag "Project"
        ("prod-" ++ s)).addStackTag "ManagedBy" "CDK"
      EnvironmentSuffix := s
      SecurityGroups := GoMap.empty
      SSMParameters := GoMap.empty } : TapStack) = t0 at hc ⊢
  obtain ⟨t1, e1, f1⟩ := createKMSKey_fields t0
  obtain ⟨t2, e2, f2⟩ := createNetworking_fields t1
  obtain ⟨t3, e3, f3⟩ := createSecurityGroups_fields t2
  obtain ⟨t4, e4, f4⟩ := createS3Resources_fields t3
  obtain ⟨t5, e5, f5⟩ := createSecretsManager_fields t4
  obtain ⟨t6, e6, f6⟩ := createSSMParameters_fields range t5
  obtain ⟨t7, e7, f7⟩ := createSNSAlerts_fields t6
  simp only [TapStack.crossStepFields, Prod.mk.injEq] at f1 f2 f3 f4 f5 f6 f7
  have h7 : t7.S3Bucket = some "ProdS3Bucket" ∧ t7.KmsKey = some "ProdKMSKey" ∧
      t7.Vpc = some "ProdVPC" ∧ t7.PrivateSubnets = some (.privateOf "ProdVPC") ∧
      t7.SecurityGroups "lambda" = some "LambdaSG" ∧
      t7.SecurityGroups "ec2" = some "EC2SG" ∧
      t7.SecurityGroups "bastion" = some "BastionSG" ∧
      t7.LoggingBucket = some "ProdLoggingBucket" := by
    simp [f1, f2, f3, f4, f5, f6, f7]
  obtain ⟨t8, e8, f8⟩ := createLambdaFunction_fields t7 _ _ h7.1 h7.2.1
  obtain ⟨t9, e9, f9⟩ := createEC2Resources_fields t8
  obtain ⟨t10, e10, f10⟩ := createBastionHost_fields t9
  simp only [TapStack.crossStepFields, Prod.mk.injEq] at f8 f9 f10
  have h10 : t10.S3Bucket = some "ProdS3Bucket" := by simp [f8, f9, f10, h7]
  obtain ⟨t11, e11, f11⟩ := createCloudFront_fields t10 _ h10
  obtain ⟨t12, e12, f12⟩ := createWAF_fields t11
  simp only [TapStack.crossStepFields, Prod.mk.injEq] at f11 f12
  have h12 : t12.LambdaFunction = some "ProdLambdaFunction" := by
    simp [f8, f9, f10, f11, f12]
  obtain ⟨t13, e13, f13⟩ := createMonitoring_fields t12 _ h12
  simp only [TapStack.crossStepFields, Prod.mk.injEq] at f13
  have h13 : t13.Vpc = some "ProdVPC" ∧ t13.S3Bucket = some "ProdS3Bucket" ∧
      t13.CloudFrontDist = some "ProdCloudFrontDist" ∧
      t13.LambdaFunction = some "ProdLambdaFunction" ∧
      t13.BastionHost = some "ProdBastionHost" ∧ t13.KmsKey = some "ProdKMSKey" := by
    simp [f8, f9, f10, f11, f12, f13, h7]
  obtain ⟨t14, e14, -⟩ := createOutputs_fields t13 _ _ _ _ _ _ h13.1 h13.2.1 h13.2.2.1
    h13.2.2.2.1 h13.2.2.2.2.1 h13.2.2.2.2.2
  have hrun : createComponents range t0 = .ok t14 := by
    rw [createComponents, e1, ok_bind, e2, ok_bind, e3, ok_bind, e4, ok_bind, e5, ok_bind, e6,
      ok_bind, e7, ok_bind, e8, ok_bind, e9, ok_bind, e10, ok_bind, e11, ok_bind, e12, ok_bind,
      e13, ok_bind, e14, ok_bind]
    rfl
  have h14 : t14 = composedStack scope id sp s range := by
    rw [hrun] at hc
    exact Except.ok.inj hc
  refine ⟨t1, t2, t3, t4, t5, t6, t7, t8, t9, t10, t11, t12, t13, t14, e1, ?_, e2, ?_, e3, ?_,
    e4, e5, e6, e7, h7.1, h7.2.1, h7.2.2.1, h7.2.2.2.1, h7.2.2.2.2.1, e8, ?_, ?_, ?_, e9, ?_,
    ?_, e10, h10, ?_, e11, e12, ?_, h12, e13, h13.1, h13.2.1, h13.2.2.1, h13.2.2.2.1,
    h13.2.2.2.2.1, h13.2.2.2.2.2, e14, hrun, ?_⟩
  · simp [f1]
  · simp [f2]
  · simp [f1, f2, f3]
  · simp [f8, h7]
  · simp [f8, h7]
  · simp [f8, h7]
  · simp [f8, f9, h7]
  · simp [f8, f9, h7]
  · simp [f8, f9, f10, h7]
  · simp [f8, f9, f10, f11, f12, h7]
  · rw [h14]
    apply nilFree_of_all
    simp [composedStack, List.all_cons, List.all_append, ssmBlock_all_nilFree,
      Construct.nilFree, Resource.handleProps, Resource.subnetListProps]

/-! ## Nil props (claim C27) -/

/-- C28: for every context given to main, the app-wide Environment tag, the stack-level
Environment tag and the stack's EnvironmentSuffix are one and the same string, the suffix
main computed (the context value when it is a string, "dev" otherwise), and the
stack-level Project tag is "prod-" followed by it. -/
theorem main_environment_tags_agree (context : String → Option CtxValue)
    (environ : Environ) (range : MapRange) :
    ∃ t, (main context environ range).stack = .ok t ∧
      lastValue (main context environ range).app.tags "Environment" =
        some (mainEnvironmentSuffix ⟨context, []⟩) ∧
      lastValue (t.Stack.tagsOn none) "Environment" =
        some (mainEnvironmentSuffix ⟨context, []⟩) ∧
      t.EnvironmentSuffix = mainEnvironmentSuffix ⟨context, []⟩ ∧
      lastValue (t.Stack.tagsOn none) "Project" =
        some ("prod-" ++ mainEnvironmentSuffix ⟨context, []⟩) ∧
      (∀ s, context "environmentSuffix" = some (.str s) →
        mainEnvironmentSuffix ⟨context, []⟩ = s) ∧
      ((∀ s, context "environmentSuffix" ≠ some (.str s)) →
        mainEnvironmentSuffix ⟨context, []⟩ = "dev") := by
  have key : ∃ t, (main context environ range).stack = .ok t ∧
      t.Stack.tagsOn none =
        [("Environment", mainEnvironmentSuffix ⟨context, []⟩),
         ("Project", "prod-" ++ mainEnvironmentSuffix ⟨context, []⟩),
         ("ManagedBy", "CDK")] ∧
      t.EnvironmentSuffix = mainEnvironmentSuffix ⟨context, []⟩ := by
    simp only [main, App.addTag, List.nil_append, List.cons_append]
    simp [NewTapStack_composed, composedStack]
    simp [Stack.tagsOn, List.filter_cons]
  obtain ⟨t, ht, hstack, hsuffix⟩ := key
  have happ : (main context environ range).app.tags =
      [("Environment", mainEnvironmentSuffix ⟨context, []⟩),
       ("Repository", getEnv environ "REPOSITORY" "unknown"),
       ("Author", getEnv environ "COMMIT_AUTHOR" "unknown")] := rfl
  refine ⟨t, ht, ?_, ?_, hsuffix, ?_, ?_, ?_⟩
  · rw [happ]; simp [lastValue, List.lookup]
  · rw [hstack]; simp [lastValue, List.lookup]
  · rw [hstack]; simp [lastValue, List.lookup]
  · intro s h
    simp [mainEnvironmentSuffix, h]
  · intro h
    cases hc : context "environmentSuffix" with
    | none => simp [mainEnvironmentSuffix, hc]
    | some v =>
      cases v with
      | str s => exact absurd hc (h s)
      | strPtr p => simp [mainEnvironmentSuffix, hc]
      | other x => simp [mainEnvironmentSuffix, hc]

end TapApp
